import Mathlib

/-!
# oura_line_bot: the pipeline of `main.go`

A shallow embedding of `src/main.go` and the properties of its pipeline
(fetch, decode, select, format, deliver).

Conventions of the embedding.

* A Go `int` is an `Int`; `/` and `%` of Go are `Int.tdiv` and `Int.tmod`. The
  program only divides by positive constants, so no operation overflows.
* A Go `string` is a sequence of bytes. Text the program produces itself (literals,
  formatted numbers and dates) is a Lean `String`; strings that come from outside
  (environment values, response bodies) and everything handed to `encoding/json` are
  `GoString` byte lists. `goString` is the UTF-8 encoding of a `String`.
* What the run depends on outside the program text (the clock, the time zone
  database, the network, `json.Unmarshal` on the three response types) is a `World`.
  A run is the list of calls it makes and the way the process ends.
* The library functions the program calls (`fmt.Sprintf`, `Time.Format`,
  `json.Marshal`, `json.Unmarshal` into a `PushRequest`) are modelled on the
  fragment the program uses.
-/

set_option maxRecDepth 100000

namespace OuraLineBot

/-! ## Package fmt (model) -/

/-- Decimal digits of `u`, most significant first: the digit loop of `fmtInteger`. Without
fuel the result is empty. -/
def decimalLoop : Nat → Nat → List Char
  | 0, _ => []
  | fuel + 1, u =>
    if u < 10 then [Nat.digitChar u]
    else decimalLoop fuel (u / 10) ++ [Nat.digitChar (u % 10)]

/-- Decimal digits of `u`; the fuel `u + 1` is always enough. -/
def decimal (u : Nat) : List Char := decimalLoop (u + 1) u

/-- Rendering of an integer by the verb `d`: `zeroWidth` is the width when the flag `0` is
set together with a width. The sign takes one place of the width. -/
def fmtInteger (zeroWidth : Option Nat) (i : Int) : List Char :=
  let negative := decide (i < 0)
  let u := i.natAbs
  let prec := match zeroWidth with
    | none => 0
    | some w => if negative then w - 1 else w
  let ds := decimal u
  let padded := List.replicate (prec - ds.length) '0' ++ ds
  if negative then '-' :: padded else padded

/-- An operand of `Sprintf`: the program passes strings and ints only. -/
inductive Arg where
  | str (s : String)
  | int (i : Int)

/-- Where the scan of the format string stands: in plain text, after `%` and flags, or inside
a width. -/
inductive Scan where
  | text
  | flags (zero : Bool)
  | width (zero : Bool) (w : Nat)

/-- Marker written for a directive outside the modelled fragment (verbs other than `s`, `d`
and `%`, flags other than `0`). No call of the program reaches it. -/
def unmodelled : List Char := "%!(UNMODELLED)".data

/-- Padding with spaces on the left up to the width. -/
def padLeft (wid : Option Nat) (s : List Char) : List Char :=
  match wid with
  | none => s
  | some w => List.replicate (w - s.length) ' ' ++ s

/-- Type and value of an operand, as written in the diagnostics of `Sprintf`. -/
def describeArg : Arg → List Char
  | .str s => "string=".data ++ s.data
  | .int i => "int=".data ++ fmtInteger none i

/-- What is written for operands left over at the end of the format. -/
def extraArgs : List Arg → List Char
  | [] => []
  | a :: as =>
    "%!(EXTRA ".data ++ describeArg a ++ (as.map fun b => ", ".data ++ describeArg b).flatten
      ++ ")".data

/-- One operand under one verb. -/
def fmtArg (zero : Bool) (wid : Option Nat) (verb : Char) (a : Arg) : List Char :=
  match a with
  | .int i =>
    if verb = 'd' then
      if zero then fmtInteger wid i else padLeft wid (fmtInteger none i)
    else if verb = 's' ∧ wid = none then "%!s(".data ++ describeArg a ++ ")".data
    else unmodelled
  | .str s =>
    if verb = 's' then
      if zero ∧ wid ≠ none then unmodelled else padLeft wid s.data
    else if verb = 'd' ∧ wid = none then "%!d(".data ++ describeArg a ++ ")".data
    else unmodelled

/-- The text of one directive and the operands that remain. -/
def printVerb (zero : Bool) (wid : Option Nat) (verb : Char) (args : List Arg) :
    List Char × List Arg :=
  if verb = '%' then (['%'], args)
  else match args with
    | [] => ("%!".data ++ [verb] ++ "(MISSING)".data, [])
    | a :: as => (fmtArg zero wid verb a, as)

/-- The scan of a format string, one character at a time. -/
def doPrintf : Scan → List Char → List Arg → List Char
  | .text, [], args => extraArgs args
  | .text, c :: rest, args =>
    if c = '%' then doPrintf (.flags false) rest args else c :: doPrintf .text rest args
  | .flags _, [], args => "%!(NOVERB)".data ++ extraArgs args
  | .flags zero, c :: rest, args =>
    if c = '0' then doPrintf (.flags true) rest args
    else if c.isDigit then doPrintf (.width zero (c.toNat - 48)) rest args
    else (printVerb zero none c args).1 ++ doPrintf .text rest (printVerb zero none c args).2
  | .width _ _, [], args => "%!(NOVERB)".data ++ extraArgs args
  | .width zero w, c :: rest, args =>
    if c.isDigit then doPrintf (.width zero (w * 10 + (c.toNat - 48))) rest args
    else (printVerb zero (some w) c args).1
      ++ doPrintf .text rest (printVerb zero (some w) c args).2

/-- The text `fmt.Sprintf(format, args...)` returns. -/
def Sprintf (format : String) (args : List Arg) : String :=
  String.mk (doPrintf .text format.data args)

/-! ## Package time (model) -/

/-- A `time.Time`: an instant, in seconds since the Unix epoch, and the offset east of UTC, in
seconds, of the location it is presented in. The part of the instant below one second is left
out: no layout of the program prints it and adding 24 hours does not change it. -/
structure Time where
  unix : Int
  offset : Int
deriving DecidableEq, Repr

/-- A `time.Duration`, in seconds. -/
abbrev Duration := Int

def Hour : Duration := 3600

def Time.Add (t : Time) (d : Duration) : Time := { t with unix := t.unix + d }

def Time.In (t : Time) (loc : Int) : Time := { t with offset := loc }

/-- Days since 1970-01-01 of the wall-clock date of `t` in its location. -/
def Time.days (t : Time) : Int := (t.unix + t.offset) / 86400

/-- Seconds elapsed since midnight on the wall clock of `t`. -/
def Time.secondOfDay (t : Time) : Int := (t.unix + t.offset) % 86400

/-- Proleptic Gregorian year, month and day of a day number counted from 1970-01-01. -/
def civilFromDays (z : Int) : Int × Int × Int :=
  let z := z + 719468
  let era := z / 146097
  let doe := z % 146097
  let yoe := (doe - doe / 1460 + doe / 36524 - doe / 146096) / 365
  let doy := doe - (365 * yoe + yoe / 4 - yoe / 100)
  let mp := (5 * doy + 2) / 153
  let d := doy - (153 * mp + 2) / 5 + 1
  let m := if mp < 10 then mp + 3 else mp - 9
  let y := yoe + era * 400
  (if m ≤ 2 then y + 1 else y, m, d)

def Time.Year (t : Time) : Int := (civilFromDays t.days).1
def Time.Month (t : Time) : Int := (civilFromDays t.days).2.1
def Time.Day (t : Time) : Int := (civilFromDays t.days).2.2
def Time.Hour (t : Time) : Int := t.secondOfDay / 3600
def Time.Minute (t : Time) : Int := t.secondOfDay % 3600 / 60
def Time.Second (t : Time) : Int := t.secondOfDay % 60

/-- The helper `appendInt` of package time: sign, then the digits zero-padded to `width`. -/
def appendInt (x : Int) (width : Nat) : List Char :=
  let ds := decimal x.natAbs
  let padded := List.replicate (width - ds.length) '0' ++ ds
  if x < 0 then '-' :: padded else padded

/-- Rendering of a layout: the elements `2006`, `01`, `02`, `15`, `04`, `05` are replaced
by the fields of `t`, other characters are copied. -/
def formatLayout (t : Time) : List Char → List Char
  | [] => []
  | '2' :: '0' :: '0' :: '6' :: rest => appendInt t.Year 4 ++ formatLayout t rest
  | '0' :: '1' :: rest => appendInt t.Month 2 ++ formatLayout t rest
  | '0' :: '2' :: rest => appendInt t.Day 2 ++ formatLayout t rest
  | '1' :: '5' :: rest => appendInt t.Hour 2 ++ formatLayout t rest
  | '0' :: '4' :: rest => appendInt t.Minute 2 ++ formatLayout t rest
  | '0' :: '5' :: rest => appendInt t.Second 2 ++ formatLayout t rest
  | c :: rest =>
    if c ∈ ['J', 'M', 'P', 'p', 'Z', '_', '.', ',', '0', '1', '2', '3', '4', '5']
        ∨ (c = '-' ∧ rest.take 2 = ['0', '7'])
    then unmodelled
    else c :: formatLayout t rest

/-- The text `t.Format(layout)` returns. -/
def Time.Format (t : Time) (layout : String) : String :=
  String.mk (formatLayout t layout.data)


/-! ## Byte strings and package unicode/utf8 (model) -/

/-- A Go `string` or `[]byte`: a sequence of bytes, not necessarily valid UTF-8. -/
abbrev GoString := List Nat

def RuneError : Nat := 0xFFFD

/-- The bytes of `utf8.AppendRune`. -/
def encodeRune (r : Nat) : GoString :=
  if r ≤ 0x7F then [r]
  else if r ≤ 0x7FF then [0xC0 + r / 64, 0x80 + r % 64]
  else if 0x10FFFF < r ∨ (0xD800 ≤ r ∧ r ≤ 0xDFFF) then [0xEF, 0xBF, 0xBD]
  else if r ≤ 0xFFFF then [0xE0 + r / 4096, 0x80 + r / 64 % 64, 0x80 + r % 64]
  else [0xF0 + r / 262144, 0x80 + r / 4096 % 64, 0x80 + r / 64 % 64, 0x80 + r % 64]

/-- The Go string holding the text `s`: its UTF-8 encoding. -/
def goString (s : String) : GoString := s.data.flatMap fun c => encodeRune c.toNat

/-- Size of the sequence announced by a leading byte, and the range its second byte must lie
in (the tables `first` and `acceptRanges` of package utf8). -/
def leadInfo (p0 : Nat) : Option (Nat × Nat × Nat) :=
  if 0xC2 ≤ p0 ∧ p0 ≤ 0xDF then some (2, 0x80, 0xBF)
  else if p0 = 0xE0 then some (3, 0xA0, 0xBF)
  else if p0 = 0xED then some (3, 0x80, 0x9F)
  else if 0xE1 ≤ p0 ∧ p0 ≤ 0xEF then some (3, 0x80, 0xBF)
  else if p0 = 0xF0 then some (4, 0x90, 0xBF)
  else if 0xF1 ≤ p0 ∧ p0 ≤ 0xF3 then some (4, 0x80, 0xBF)
  else if p0 = 0xF4 then some (4, 0x80, 0x8F)
  else none

/-- The rune and its width in bytes, as returned by `utf8.DecodeRune`. -/
def decodeRune : GoString → Nat × Nat
  | [] => (RuneError, 0)
  | p0 :: rest =>
    if p0 < 0x80 then (p0, 1)
    else match leadInfo p0 with
      | none => (RuneError, 1)
      | some (sz, lo, hi) =>
        if rest.length + 1 < sz then (RuneError, 1)
        else match rest with
          | [] => (RuneError, 1)
          | b1 :: rest1 =>
            if b1 < lo ∨ hi < b1 then (RuneError, 1)
            else if sz ≤ 2 then (p0 % 32 * 64 + b1 % 64, 2)
            else match rest1 with
              | [] => (RuneError, 1)
              | b2 :: rest2 =>
                if b2 < 0x80 ∨ 0xBF < b2 then (RuneError, 1)
                else if sz ≤ 3 then (p0 % 16 * 4096 + b1 % 64 * 64 + b2 % 64, 3)
                else match rest2 with
                  | [] => (RuneError, 1)
                  | b3 :: _ =>
                    if b3 < 0x80 ∨ 0xBF < b3 then (RuneError, 1)
                    else (p0 % 8 * 262144 + b1 % 64 * 4096 + b2 % 64 * 64 + b3 % 64, 4)

/-! ## Package encoding/json (model): encoding -/

/-- The type `TextMessage` of the program (its field `Type` is `MsgType` here). -/
structure TextMessage where
  MsgType : GoString
  Text : GoString
deriving DecidableEq, Repr

/-- The type `PushRequest` of the program. -/
structure PushRequest where
  To : GoString
  Messages : List TextMessage
deriving DecidableEq, Repr

/-- The table `htmlSafeSet`: the ASCII bytes written to a JSON string as they are. -/
def htmlSafe (b : Nat) : Bool :=
  0x20 ≤ b ∧ b < 0x80 ∧ b ≠ 0x22 ∧ b ≠ 0x5C ∧ b ≠ 0x3C ∧ b ≠ 0x3E ∧ b ≠ 0x26

/-- The digit `"0123456789abcdef"[n]`. -/
def hexDigit (n : Nat) : Nat := if n < 10 then 0x30 + n else 0x61 + (n - 10)

/-- Escape sequence of an ASCII byte that is not in `htmlSafeSet`. -/
def escapeByte (b : Nat) : GoString :=
  if b = 0x5C ∨ b = 0x22 then [0x5C, b]
  else if b = 0x08 then goString "\\b"
  else if b = 0x0C then goString "\\f"
  else if b = 0x0A then goString "\\n"
  else if b = 0x0D then goString "\\r"
  else if b = 0x09 then goString "\\t"
  else goString "\\u00" ++ [hexDigit (b / 16), hexDigit (b % 16)]

/-- The loop of `appendString` (with HTML escaping, as `json.Marshal` sets it). -/
def appendStringLoop : Nat → GoString → GoString
  | 0, _ => []
  | _ + 1, [] => []
  | fuel + 1, b :: rest =>
    if b < 0x80 then
      (if htmlSafe b then [b] else escapeByte b) ++ appendStringLoop fuel rest
    else
      let c := (decodeRune (b :: rest)).1
      let size := (decodeRune (b :: rest)).2
      if c = RuneError ∧ size = 1 then
        goString "\\ufffd" ++ appendStringLoop fuel rest
      else if c = 0x2028 ∨ c = 0x2029 then
        goString "\\u202" ++ [hexDigit (c % 16)] ++ appendStringLoop fuel ((b :: rest).drop size)
      else
        (b :: rest).take size ++ appendStringLoop fuel ((b :: rest).drop size)

/-- A Go string as a JSON string literal. -/
def appendString (src : GoString) : GoString :=
  0x22 :: appendStringLoop src.length src ++ [0x22]

def marshalTextMessage (m : TextMessage) : GoString :=
  goString "\x7b\"type\":" ++ appendString m.MsgType ++ goString ",\"text\":" ++ appendString m.Text
    ++ goString "\x7d"

def marshalMessages : List TextMessage → GoString
  | [] => []
  | [m] => marshalTextMessage m
  | m :: ms => marshalTextMessage m ++ goString "," ++ marshalMessages ms

/-- The bytes `json.Marshal` returns for a `PushRequest` (whose slice is not nil). -/
def marshalPushRequest (p : PushRequest) : GoString :=
  goString "\x7b\"to\":" ++ appendString p.To ++ goString ",\"messages\":["
    ++ marshalMessages p.Messages ++ goString "]\x7d"


/-! ## Package encoding/json (model): decoding -/

/-- A JSON value as the decoder reads it; strings are held unquoted. -/
inductive Json where
  | null
  | bool (b : Bool)
  | num (raw : GoString)
  | str (s : GoString)
  | arr (xs : List Json)
  | obj (members : List (GoString × Json))

def isSpace (b : Nat) : Bool := b = 0x20 ∨ b = 0x09 ∨ b = 0x0A ∨ b = 0x0D

def skipSpace : GoString → GoString
  | [] => []
  | b :: rest => if isSpace b then skipSpace rest else b :: rest

def hexVal (b : Nat) : Option Nat :=
  if 0x30 ≤ b ∧ b ≤ 0x39 then some (b - 0x30)
  else if 0x61 ≤ b ∧ b ≤ 0x66 then some (b - 0x61 + 10)
  else if 0x41 ≤ b ∧ b ≤ 0x46 then some (b - 0x41 + 10)
  else none

/-- The rune of a `\uXXXX` escape at the head of `s`, as `getu4`. -/
def getu4 (s : GoString) : Option Nat :=
  match s with
  | b0 :: b1 :: h3 :: h2 :: h1 :: h0 :: _ =>
    if b0 = 0x5C ∧ b1 = 0x75 then
      match hexVal h3, hexVal h2, hexVal h1, hexVal h0 with
      | some d3, some d2, some d1, some d0 => some (d3 * 4096 + d2 * 256 + d1 * 16 + d0)
      | _, _, _, _ => none
    else none
  | _ => none

def isSurrogate (r : Nat) : Bool := 0xD800 ≤ r ∧ r < 0xE000

/-- The rune of a surrogate pair, as `utf16.DecodeRune`. -/
def decodeSurrogates (r1 r2 : Nat) : Nat :=
  if 0xD800 ≤ r1 ∧ r1 < 0xDC00 ∧ 0xDC00 ≤ r2 ∧ r2 < 0xE000 then
    (r1 - 0xD800) * 1024 + (r2 - 0xDC00) + 0x10000
  else RuneError

/-- The byte a one-letter escape stands for. -/
def simpleEscape (e : Nat) : Option Nat :=
  if e = 0x22 ∨ e = 0x5C ∨ e = 0x2F then some e
  else if e = 0x62 then some 0x08
  else if e = 0x66 then some 0x0C
  else if e = 0x6E then some 0x0A
  else if e = 0x72 then some 0x0D
  else if e = 0x74 then some 0x09
  else none

/-- The string literal whose opening quote has been read: its unquoted value, as `unquote`
yields it, and the input after the closing quote. -/
def unquoteLoop : Nat → GoString → Option (GoString × GoString)
  | 0, _ => none
  | _ + 1, [] => none
  | fuel + 1, b :: rest =>
    if b = 0x22 then some ([], rest)
    else if b = 0x5C then
      match rest with
      | [] => none
      | e :: rest1 =>
        if e = 0x75 then
          match getu4 (b :: rest) with
          | none => none
          | some rr =>
            if isSurrogate rr then
              match getu4 (rest1.drop 4) with
              | none =>
                (unquoteLoop fuel (rest1.drop 4)).map fun r => (encodeRune RuneError ++ r.1, r.2)
              | some rr1 =>
                if decodeSurrogates rr rr1 ≠ RuneError then
                  (unquoteLoop fuel (rest1.drop 10)).map fun r =>
                    (encodeRune (decodeSurrogates rr rr1) ++ r.1, r.2)
                else
                  (unquoteLoop fuel (rest1.drop 4)).map fun r =>
                    (encodeRune RuneError ++ r.1, r.2)
            else (unquoteLoop fuel (rest1.drop 4)).map fun r => (encodeRune rr ++ r.1, r.2)
        else
          match simpleEscape e with
          | none => none
          | some c => (unquoteLoop fuel rest1).map fun r => (c :: r.1, r.2)
    else if b < 0x20 then none
    else if b < 0x80 then (unquoteLoop fuel rest).map fun r => (b :: r.1, r.2)
    else
      (unquoteLoop fuel ((b :: rest).drop (decodeRune (b :: rest)).2)).map fun r =>
        (encodeRune (decodeRune (b :: rest)).1 ++ r.1, r.2)

def unquote (s : GoString) : Option (GoString × GoString) := unquoteLoop (s.length + 1) s

def isDigit (b : Nat) : Bool := 0x30 ≤ b ∧ b ≤ 0x39

def scanDigits : GoString → GoString × GoString
  | [] => ([], [])
  | b :: rest => if isDigit b then ((b :: (scanDigits rest).1), (scanDigits rest).2) else ([], b :: rest)

/-- Exponent part of a number, if one is present. -/
def scanExponent (s : GoString) : Option (GoString × GoString) :=
  match s with
  | e :: rest =>
    if e = 0x65 ∨ e = 0x45 then
      match rest with
      | sg :: rest1 =>
        if sg = 0x2B ∨ sg = 0x2D then
          if (scanDigits rest1).1 = [] then none
          else some (e :: sg :: (scanDigits rest1).1, (scanDigits rest1).2)
        else if (scanDigits rest).1 = [] then none
        else some (e :: (scanDigits rest).1, (scanDigits rest).2)
      | [] => none
    else some ([], s)
  | [] => some ([], [])

/-- Fraction part of a number, if one is present. -/
def scanFraction (s : GoString) : Option (GoString × GoString) :=
  match s with
  | d :: rest =>
    if d = 0x2E then
      if (scanDigits rest).1 = [] then none
      else some (d :: (scanDigits rest).1, (scanDigits rest).2)
    else some ([], s)
  | [] => some ([], [])

/-- Integer part of a number, without sign. -/
def scanInteger (s : GoString) : Option (GoString × GoString) :=
  match s with
  | d :: rest =>
    if d = 0x30 then some ([d], rest)
    else if isDigit d then some (d :: (scanDigits rest).1, (scanDigits rest).2)
    else none
  | [] => none

def scanNumber (s : GoString) : Option (GoString × GoString) :=
  let sign : GoString := if s.head? = some 0x2D then [0x2D] else []
  match scanInteger (s.drop sign.length) with
  | none => none
  | some (i, r1) =>
    match scanFraction r1 with
    | none => none
    | some (f, r2) =>
      match scanExponent r2 with
      | none => none
      | some (e, r3) => some (sign ++ i ++ f ++ e, r3)

mutual

/-- One JSON value at the head of the input, after optional white space. Without fuel the
result is `none`. -/
def parseValue : Nat → GoString → Option (Json × GoString)
  | 0, _ => none
  | fuel + 1, data =>
    match skipSpace data with
    | [] => none
    | b :: rest =>
      if b = 0x22 then (unquote rest).map fun r => (Json.str r.1, r.2)
      else if b = 0x7B then
        if (skipSpace rest).head? = some 0x7D then some (Json.obj [], (skipSpace rest).tail)
        else (parseMembers fuel rest).map fun r => (Json.obj r.1, r.2)
      else if b = 0x5B then
        if (skipSpace rest).head? = some 0x5D then some (Json.arr [], (skipSpace rest).tail)
        else (parseElements fuel rest).map fun r => (Json.arr r.1, r.2)
      else if (b :: rest).take 4 = goString "true" then some (Json.bool true, rest.drop 3)
      else if (b :: rest).take 5 = goString "false" then some (Json.bool false, rest.drop 4)
      else if (b :: rest).take 4 = goString "null" then some (Json.null, rest.drop 3)
      else (scanNumber (b :: rest)).map fun r => (Json.num r.1, r.2)

/-- The members of an object up to its closing brace. -/
def parseMembers : Nat → GoString → Option (List (GoString × Json) × GoString)
  | 0, _ => none
  | fuel + 1, data =>
    match skipSpace data with
    | [] => none
    | q :: r1 =>
      if q ≠ 0x22 then none
      else match unquote r1 with
        | none => none
        | some (k, r2) =>
          match skipSpace r2 with
          | [] => none
          | c :: r3 =>
            if c ≠ 0x3A then none
            else match parseValue fuel r3 with
              | none => none
              | some (v, r4) =>
                match skipSpace r4 with
                | [] => none
                | d :: r5 =>
                  if d = 0x2C then (parseMembers fuel r5).map fun r => ((k, v) :: r.1, r.2)
                  else if d = 0x7D then some ([(k, v)], r5)
                  else none

/-- The elements of an array up to its closing bracket. -/
def parseElements : Nat → GoString → Option (List Json × GoString)
  | 0, _ => none
  | fuel + 1, data =>
    match parseValue fuel data with
    | none => none
    | some (v, r1) =>
      match skipSpace r1 with
      | [] => none
      | d :: r2 =>
        if d = 0x2C then (parseElements fuel r2).map fun r => (v :: r.1, r.2)
        else if d = 0x5D then some ([v], r2)
        else none

end

/-- Upper-case form of a key under which `Unmarshal` compares it with the field names: ASCII
letters, and the two other runes that fold to one, U+017F and U+212A. -/
def foldName : GoString → GoString
  | [] => []
  | 0xC5 :: 0xBF :: rest => 0x53 :: foldName rest
  | 0xE2 :: 0x84 :: 0xAA :: rest => 0x4B :: foldName rest
  | c :: rest => (if 0x61 ≤ c ∧ c ≤ 0x7A then c - 0x20 else c) :: foldName rest

/-- Decoding of the members of an object into a `TextMessage`. -/
def decodeTextMessageFields (m : TextMessage) : List (GoString × Json) → Except String TextMessage
  | [] => .ok m
  | (k, v) :: members =>
    if foldName k = foldName (goString "type") then
      match v with
      | .str s => decodeTextMessageFields { m with MsgType := s } members
      | .null => decodeTextMessageFields m members
      | _ => .error "json: cannot unmarshal into Go struct field TextMessage.type of type string"
    else if foldName k = foldName (goString "text") then
      match v with
      | .str s => decodeTextMessageFields { m with Text := s } members
      | .null => decodeTextMessageFields m members
      | _ => .error "json: cannot unmarshal into Go struct field TextMessage.text of type string"
    else decodeTextMessageFields m members

/-- Decoding of an array element into a fresh `TextMessage`. -/
def decodeTextMessage (v : Json) : Except String TextMessage :=
  match v with
  | .obj members => decodeTextMessageFields { MsgType := [], Text := [] } members
  | .null => .ok { MsgType := [], Text := [] }
  | _ => .error "json: cannot unmarshal into Go value of type main.TextMessage"

/-- Decoding of the members of an object into a `PushRequest`. -/
def decodePushRequestFields (p : PushRequest) : List (GoString × Json) → Except String PushRequest
  | [] => .ok p
  | (k, v) :: members =>
    if foldName k = foldName (goString "to") then
      match v with
      | .str s => decodePushRequestFields { p with To := s } members
      | .null => decodePushRequestFields p members
      | _ => .error "json: cannot unmarshal into Go struct field PushRequest.to of type string"
    else if foldName k = foldName (goString "messages") then
      match v with
      | .arr xs =>
        match xs.mapM decodeTextMessage with
        | .ok ms => decodePushRequestFields { p with Messages := ms } members
        | .error e => .error e
      | .null => decodePushRequestFields { p with Messages := [] } members
      | _ => .error "json: cannot unmarshal into Go struct field PushRequest.messages"
    else decodePushRequestFields p members

/-- Result of `json.Unmarshal(data, &p)` for a zero-valued `p` of type `PushRequest`. -/
def unmarshalPushRequest (data : GoString) : Except String PushRequest :=
  match parseValue (data.length + 1) data with
  | none => .error "invalid JSON"
  | some (v, rest) =>
    if skipSpace rest ≠ [] then .error "invalid character after top-level value"
    else match v with
      | .obj members => decodePushRequestFields { To := [], Messages := [] } members
      | .null => .ok { To := [], Messages := [] }
      | _ => .error "json: cannot unmarshal into Go value of type main.PushRequest"


/-! ## The program: data model -/

structure Activity where
  ActiveScore : Int
  Calories : Int
  NonWearTime : Int
deriving DecidableEq, Repr

structure DailyActivityResponse where
  Data : List Activity
  NextToken : Option GoString
deriving DecidableEq, Repr

structure Sleep where
  BedtimeStart : Time
  BedtimeEnd : Time
  DeepSleepDuration : Int
  LightSleepDuration : Int
  RemSleepDuration : Int
  TotalSleepDuration : Int
  Efficiency : Int
  LowBatteryAlert : Bool
deriving DecidableEq, Repr

structure SleepResponse where
  Data : List Sleep
  NextToken : Option GoString
deriving DecidableEq, Repr

structure SleepContributors where
  DeepSleep : Int
  RemSleep : Int
  Restfulness : Int
  TotalSleep : Int
deriving DecidableEq, Repr

structure SleepScore where
  Contributors : SleepContributors
  Score : Int
deriving DecidableEq, Repr

structure SleepScoreResponse where
  Data : List SleepScore
  NextToken : Option GoString
deriving DecidableEq, Repr

def NoDataMessage : String :=
  "⚠データが取得できませんでした!\n\nデータが同期されていない可能性があります。\n\nアプリ上でデータの連携状況\n及び、リングの残バッテリー量を確認してください!"

/-! ## The program: formatting -/

/-- Lines 303 to 308. -/
def formatSecondsToTime (seconds : Int) : String :=
  let hours := Int.tdiv seconds 3600
  let minutes := Int.tdiv (Int.tmod seconds 3600) 60
  let secs := Int.tmod seconds 60
  Sprintf "%02dh:%02dm:%02ds" [.int hours, .int minutes, .int secs]

/-- Lines 311 to 317. -/
def getBatteryStatusMessage (batterystatus : Bool) : String :=
  if batterystatus then
    "バッテリー残量が少なくなっています。"
  else
    "バッテリー残量は十分です。"

/-- The format string of the report, lines 174 to 196 of main. -/
def reportTemplate : String :=
    "■低バッテリーアラート:\n" ++
    "\t%s\n" ++
    "\n" ++
    "■睡眠データ:\n" ++
    "  ・合計睡眠時間:\n\u3000\u3000\u3000\u3000\u3000%s\n" ++
    "  ・睡眠効率:\t\t%d%%\n" ++
    "  ・就寝時間:\n\t\t\u3000\u3000\u3000\u3000%s\n" ++
    "  ・起床時間:\n\t\t\u3000\u3000\u3000\u3000%s\n" ++
    "  ・深い睡眠時間:\n\t\t\u3000\u3000\u3000\u3000\u3000%s\n" ++
    "  ・浅い睡眠時間:\n\t\t\u3000\u3000\u3000\u3000\u3000%s\n" ++
    "  ・REM睡眠時間:\n\t\t\u3000\u3000\u3000\u3000\u3000%s\n" ++
    "\t\n" ++
    "■睡眠スコアデータ:\n" ++
    "  ・睡眠スコア:\t\t%d/100\n" ++
    "  ・安眠度のスコア:\t\t%d/100\n" ++
    "  ・睡眠時間のスコア:\t\t%d/100\n" ++
    "  ・深い睡眠のスコア:\t\t%d/100\n" ++
    "  ・REM睡眠のスコア:\t\t%d/100\n" ++
    "\t\n" ++
    "■活動量データ:\n" ++
    "  ・アクティブスコア:\t\t%d/100\n" ++
    "  ・総消費カロリー:\t\t%d kcal\n" ++
    "  ・着用していない時間:\n\t\t\u3000\u3000\u3000\u3000\u3000%s"

/-- The value of `message` built by main (lines 173 to 216) from the selected records. -/
def reportMessage (activity : Activity) (sleep : Sleep) (sleepScore : SleepScore) : String :=
  Sprintf reportTemplate
    [ .str (getBatteryStatusMessage sleep.LowBatteryAlert),

      .str (formatSecondsToTime sleep.TotalSleepDuration),
      .int sleep.Efficiency,
      .str (sleep.BedtimeStart.Format "2006-01-02 15:04:05"),
      .str (sleep.BedtimeEnd.Format "2006-01-02 15:04:05"),
      .str (formatSecondsToTime sleep.DeepSleepDuration),
      .str (formatSecondsToTime sleep.LightSleepDuration),
      .str (formatSecondsToTime sleep.RemSleepDuration),

      .int sleepScore.Score,
      .int sleepScore.Contributors.Restfulness,
      .int sleepScore.Contributors.TotalSleep,
      .int sleepScore.Contributors.DeepSleep,
      .int sleepScore.Contributors.RemSleep,

      .int activity.ActiveScore,
      .int activity.Calories,
      .str (formatSecondsToTime activity.NonWearTime) ]


/-! ## The program: environment -/

/-- The values `os.Getenv` returns for the three variables (empty when unset). -/
structure Config where
  OURA_API_TOKEN : GoString
  LINE_API_TOKEN : GoString
  TO_LINE_USER : GoString
deriving DecidableEq, Repr

/-- A request as handed to the HTTP client: method, URL, the two headers the program sets,
the body, and the timeout of the client. -/
structure HttpRequest where
  method : String
  url : String
  contentType : Option String
  authorization : GoString
  body : Option GoString
  /-- The `Timeout` of the client, in seconds; `none` is no timeout. -/
  timeout : Option Nat
deriving DecidableEq, Repr

/-- The part of a response the program looks at. -/
structure HttpResponse where
  StatusCode : Int
  /-- What `io.ReadAll` yields on the body. -/
  Body : Except String GoString

/-- What the run depends on outside the program text. -/
structure World where
  /-- The value of the k-th call of `time.Now`. -/
  now : Nat → Time
  /-- Whether `time.LoadLocation` finds the time zone database. -/
  tzdata : Bool
  /-- Whether `http.NewRequest` accepts the method and URL. -/
  newRequest : String → String → Bool
  /-- The outcome of `Client.Do`. -/
  doRequest : HttpRequest → Except String HttpResponse
  /-- The outcomes of `json.Unmarshal` into the three response types. -/
  unmarshalActivity : GoString → Except String DailyActivityResponse
  unmarshalSleep : GoString → Except String SleepResponse
  unmarshalSleepScore : GoString → Except String SleepScoreResponse

/-- The location Asia/Tokyo, nine hours east of UTC. -/
def LoadLocation (w : World) : Option Int :=
  if w.tzdata then some (9 * 3600) else none

/-- Lines 293 to 300. Result `none`: the location is not found and the run ends in
`log.Fatal`. -/
def formatDate (w : World) (date : Time) : Option String :=
  match LoadLocation w with
  | none => none
  | some loc =>
    let JPDate := date.In loc
    some (JPDate.Format "2006-01-02")

/-- Lines 225 to 248: one GET with the bearer token and a timeout of ten seconds; an error
when the request cannot be built or sent or the status is not 200, else the body read. -/
def fetchOuraData (w : World) (endpoint : String) (token : GoString) (startdate enddate : String) :
    Except String GoString :=
  let url := Sprintf "%s?start_date=%s&end_date=%s" [.str endpoint, .str startdate, .str enddate]
  if ¬ w.newRequest "GET" url then .error "http.NewRequest" else
  let req : HttpRequest :=
    { method := "GET", url := url, contentType := none,
      authorization := goString "Bearer " ++ token, body := none, timeout := some 10 }
  match w.doRequest req with
  | .error err => .error err
  | .ok res =>
    if res.StatusCode ≠ 200 then
      .error (Sprintf "status %d from %s" [.int res.StatusCode, .str endpoint])
    else res.Body

/-- Lines 251 to 289: one POST of the encoded push request. `json.Marshal` has no failing
case on a struct of strings, so its error branch is not reached; the other three error
returns are those of `http.NewRequest`, of `Client.Do` and of a status other than 200. -/
def sendLineMessage (w : World) (token userId message : GoString) : Except String Unit :=
  let url := "https://api.line.me/v2/bot/message/push"
  let payload : PushRequest :=
    { To := userId,
      Messages := [{ MsgType := goString "text", Text := message }] }
  let jsonPayload := marshalPushRequest payload
  if ¬ w.newRequest "POST" url then .error "http.NewRequest" else
  let req : HttpRequest :=
    { method := "POST", url := url, contentType := some "application/json",
      authorization := goString "Bearer " ++ token, body := some jsonPayload, timeout := none }
  match w.doRequest req with
  | .error err => .error err
  | .ok resp =>
    if resp.StatusCode ≠ 200 then
      .error (Sprintf "status %d from LINE API" [.int resp.StatusCode])
    else .ok ()

/-! ## The program: main -/

inductive Category where
  | activity
  | sleep
  | sleepScore
deriving DecidableEq, Repr

/-- The calls a run makes, in order. -/
inductive Call where
  | fetchOuraData (endpoint : String) (token : GoString) (startdate enddate : String)
  | unmarshal (target : Category) (data : GoString)
  | sprintfReport
  | sendLineMessage (token userId message : GoString)
deriving DecidableEq, Repr

/-- How the process ends: return from main, `log.Fatal`, or a run-time panic. -/
inductive Exit where
  | success
  | fatal (msg : String)
  | panic
deriving DecidableEq, Repr

structure Run where
  calls : List Call
  exit : Exit
deriving DecidableEq, Repr

/-- The run that makes call `c` and goes on as `r`. -/
def Run.call (c : Call) (r : Run) : Run := { r with calls := c :: r.calls }

/-- Indexing `s[i]` of a slice: `none` is the index-out-of-range panic. -/
def index {α : Type} (s : List α) (i : Int) : Option α :=
  if 0 ≤ i ∧ i < s.length then s[i.toNat]? else none

/-- Outcome of the selection done for each category. -/
inductive Selected (α : Type) where
  | noData
  | record (a : α)
  | outOfRange
deriving DecidableEq, Repr

/-- The test `len(data) == 0` followed by `data[len(data)-1]`, as main does for each of the
three categories (lines 136 to 142, 150 to 156, 164 to 170). -/
def selectLast {α : Type} (data : List α) : Selected α :=
  if (data.length : Int) = 0 then .noData
  else match index data ((data.length : Int) - 1) with
    | some a => .record a
    | none => .outOfRange

/-- Lines 130 to 222 of main: what the run does with the three fetched bodies. -/
def mainAfterFetch (cfg : Config) (w : World) (acRes sleepRes sleepScoreRes : GoString) : Run :=
  let lineApiToken := cfg.LINE_API_TOKEN
  let toLineUserId := cfg.TO_LINE_USER
  Run.call (.unmarshal .activity acRes) <|
  match w.unmarshalActivity acRes with
  | .error _ => ⟨[], .fatal "JSONのデコードに失敗しました:"⟩
  | .ok activityRes =>
  match selectLast activityRes.Data with
  | .noData =>
    Run.call (.sendLineMessage lineApiToken toLineUserId (goString NoDataMessage)) <|
    match sendLineMessage w lineApiToken toLineUserId (goString NoDataMessage) with
    | .error _ => ⟨[], .fatal "LINEメッセージの送信に失敗しました:"⟩
    | .ok _ => ⟨[], .success⟩
  | .outOfRange => ⟨[], .panic⟩
  | .record activity =>
  Run.call (.unmarshal .sleep sleepRes) <|
  match w.unmarshalSleep sleepRes with
  | .error _ => ⟨[], .fatal "JSONのデコードに失敗しました:"⟩
  | .ok sleepData =>
  match selectLast sleepData.Data with
  | .noData =>
    Run.call (.sendLineMessage lineApiToken toLineUserId (goString NoDataMessage)) <|
    match sendLineMessage w lineApiToken toLineUserId (goString NoDataMessage) with
    | .error _ => ⟨[], .fatal "LINEメッセージの送信に失敗しました:"⟩
    | .ok _ => ⟨[], .success⟩
  | .outOfRange => ⟨[], .panic⟩
  | .record sleep =>
  Run.call (.unmarshal .sleepScore sleepScoreRes) <|
  match w.unmarshalSleepScore sleepScoreRes with
  | .error _ => ⟨[], .fatal "JSONのデコードに失敗しました:"⟩
  | .ok sleepScoreData =>
  match selectLast sleepScoreData.Data with
  | .noData =>
    Run.call (.sendLineMessage lineApiToken toLineUserId (goString NoDataMessage)) <|
    match sendLineMessage w lineApiToken toLineUserId (goString NoDataMessage) with
    | .error _ => ⟨[], .fatal "LINEメッセージの送信に失敗しました:"⟩
    | .ok _ => ⟨[], .success⟩
  | .outOfRange => ⟨[], .panic⟩
  | .record sleepScore =>
  Run.call .sprintfReport <|
  let message := reportMessage activity sleep sleepScore
  Run.call (.sendLineMessage lineApiToken toLineUserId (goString message)) <|
  match sendLineMessage w lineApiToken toLineUserId (goString message) with
  | .error _ => ⟨[], .fatal "LINEメッセージの送信に失敗しました:"⟩
  | .ok _ => ⟨[], .success⟩

def ouraApiDailyActivityUrl : String := "https://api.ouraring.com/v2/usercollection/daily_activity"
def ouraApiSleepUrl : String := "https://api.ouraring.com/v2/usercollection/sleep"
def ouraApiSleepScoreUrl : String := "https://api.ouraring.com/v2/usercollection/daily_sleep"

/-- Lines 83 to 128 of main, followed by `mainAfterFetch`. -/
def main (cfg : Config) (w : World) : Run :=
  let ouraApiToken := cfg.OURA_API_TOKEN
  if ouraApiToken = [] then ⟨[], .fatal "OURA_API_TOKEN が設定されていません"⟩ else
  let lineApiToken := cfg.LINE_API_TOKEN
  if lineApiToken = [] then ⟨[], .fatal "LINE_API_TOKEN が設定されていません"⟩ else
  let toLineUserId := cfg.TO_LINE_USER
  if toLineUserId = [] then ⟨[], .fatal "TO_LINE_USER が設定されていません"⟩ else
  let yesterdayDate := (w.now 0).Add (-24 * Hour)
  match formatDate w yesterdayDate with
  | none => ⟨[], .fatal "タイムゾーンの取得に失敗しました:"⟩
  | some yesterdayDateFormed =>
  let todayDate := w.now 1
  match formatDate w todayDate with
  | none => ⟨[], .fatal "タイムゾーンの取得に失敗しました:"⟩
  | some todayDateFormed =>
  Run.call (.fetchOuraData ouraApiDailyActivityUrl ouraApiToken yesterdayDateFormed todayDateFormed) <|
  match fetchOuraData w ouraApiDailyActivityUrl ouraApiToken yesterdayDateFormed todayDateFormed with
  | .error _ => ⟨[], .fatal "活動量データの取得に失敗しました:"⟩
  | .ok acRes =>
  Run.call (.fetchOuraData ouraApiSleepUrl ouraApiToken yesterdayDateFormed todayDateFormed) <|
  match fetchOuraData w ouraApiSleepUrl ouraApiToken yesterdayDateFormed todayDateFormed with
  | .error _ => ⟨[], .fatal "睡眠データの取得に失敗しました:"⟩
  | .ok sleepRes =>
  Run.call (.fetchOuraData ouraApiSleepScoreUrl ouraApiToken todayDateFormed todayDateFormed) <|
  match fetchOuraData w ouraApiSleepScoreUrl ouraApiToken todayDateFormed todayDateFormed with
  | .error _ => ⟨[], .fatal "日々の睡眠スコアデータの取得に失敗しました:"⟩
  | .ok sleepScoreRes =>
  mainAfterFetch cfg w acRes sleepRes sleepScoreRes

/-! ## Notions used to state the properties -/

def Call.isSend : Call → Bool
  | .sendLineMessage _ _ _ => true
  | _ => false

/-- The calls of `sendLineMessage` made by a run, in order. -/
def Run.sends (r : Run) : List Call := r.calls.filter Call.isSend

def Exit.isFatal : Exit → Bool
  | .fatal _ => true
  | _ => false

/-- The `start_date` main passes for activity and sleep, when the zone is available. -/
def yesterdayDateFormed (w : World) : String :=
  (((w.now 0).Add (-24 * Hour)).In (9 * 3600)).Format "2006-01-02"

/-- The `end_date` main passes, also the `start_date` for the sleep score. -/
def todayDateFormed (w : World) : String :=
  ((w.now 1).In (9 * 3600)).Format "2006-01-02"


/-- The configuration is complete, the zone is found and the three fetches of the run
succeed with the given bodies. -/
def Fetched (cfg : Config) (w : World) (acRes sleepRes sleepScoreRes : GoString) : Prop :=
  cfg.OURA_API_TOKEN ≠ [] ∧ cfg.LINE_API_TOKEN ≠ [] ∧ cfg.TO_LINE_USER ≠ [] ∧ w.tzdata = true
  ∧ fetchOuraData w ouraApiDailyActivityUrl cfg.OURA_API_TOKEN
      (yesterdayDateFormed w) (todayDateFormed w) = .ok acRes
  ∧ fetchOuraData w ouraApiSleepUrl cfg.OURA_API_TOKEN
      (yesterdayDateFormed w) (todayDateFormed w) = .ok sleepRes
  ∧ fetchOuraData w ouraApiSleepScoreUrl cfg.OURA_API_TOKEN
      (todayDateFormed w) (todayDateFormed w) = .ok sleepScoreRes

/-- The three calls of `fetchOuraData` of a run, in order. -/
def fetchCalls (cfg : Config) (w : World) : List Call :=
  [ .fetchOuraData ouraApiDailyActivityUrl cfg.OURA_API_TOKEN
      (yesterdayDateFormed w) (todayDateFormed w),
    .fetchOuraData ouraApiSleepUrl cfg.OURA_API_TOKEN (yesterdayDateFormed w) (todayDateFormed w),
    .fetchOuraData ouraApiSleepScoreUrl cfg.OURA_API_TOKEN (todayDateFormed w) (todayDateFormed w) ]

/-- How a run ends after its call of `sendLineMessage` returned `r`. -/
def exitAfterSend (r : Except String Unit) : Exit :=
  match r with
  | .error _ => .fatal "LINEメッセージの送信に失敗しました:"
  | .ok _ => .success

/-- The call of `sendLineMessage` that main makes with message text `message`. -/
def sendCall (cfg : Config) (message : String) : Call :=
  .sendLineMessage cfg.LINE_API_TOKEN cfg.TO_LINE_USER (goString message)

/-- The result of the call `sendCall cfg message`. -/
def sendResult (cfg : Config) (w : World) (message : String) : Except String Unit :=
  sendLineMessage w cfg.LINE_API_TOKEN cfg.TO_LINE_USER (goString message)

def decodeFatal : Exit := .fatal "JSONのデコードに失敗しました:"

/-! ## Concrete runs -/

def exampleConfig : Config :=
  { OURA_API_TOKEN := goString "oura-token",
    LINE_API_TOKEN := goString "line-token",
    TO_LINE_USER := goString "U0123456789abcdef" }

/-- A world in which the clock reads `now0` and then `now1`, the three endpoints answer with
status 200 and the given bodies, the messaging API answers with status `lineStatus`, and
`json.Unmarshal` yields the given results on those bodies. -/
def exampleWorld (now0 now1 : Time) (acBody sleepBody scoreBody : GoString) (lineStatus : Int)
    (ua : Except String DailyActivityResponse) (us : Except String SleepResponse)
    (uss : Except String SleepScoreResponse) : World :=
  { now := fun k => if k = 0 then now0 else now1,
    tzdata := true,
    newRequest := fun _ _ => true,
    doRequest := fun req =>
      if req.method = "POST" then .ok ⟨lineStatus, .ok []⟩
      else if (ouraApiDailyActivityUrl.data ++ ['?']).isPrefixOf req.url.data then
        .ok ⟨200, .ok acBody⟩
      else if (ouraApiSleepUrl.data ++ ['?']).isPrefixOf req.url.data then
        .ok ⟨200, .ok sleepBody⟩
      else .ok ⟨200, .ok scoreBody⟩,
    unmarshalActivity := fun _ => ua,
    unmarshalSleep := fun _ => us,
    unmarshalSleepScore := fun _ => uss }

def emptyBody : GoString := goString "\x7b\"data\":[],\"next_token\":null\x7d"

def htmlBody : GoString := goString "<html>502 Bad Gateway</html>"

def sampleActivity : Activity := { ActiveScore := 80, Calories := 2000, NonWearTime := 600 }

def sampleSleep : Sleep :=
  { BedtimeStart := ⟨1704119400, 32400⟩, BedtimeEnd := ⟨1704148200, 32400⟩,
    DeepSleepDuration := 7200, LightSleepDuration := 14400, RemSleepDuration := 7200,
    TotalSleepDuration := 28800, Efficiency := 90, LowBatteryAlert := false }

def sampleSleepScore : SleepScore :=
  { Contributors := { DeepSleep := 82, RemSleep := 83, Restfulness := 80, TotalSleep := 81 },
    Score := 85 }

/-- Noon of 2024-01-01 in Tokyo. -/
def noon : Time := ⟨1704078000, 0⟩

/-- The activity list is empty and the sleep body is not JSON. -/
def worldEmptyActivityBadSleep : World :=
  exampleWorld noon noon emptyBody htmlBody emptyBody 200
    (.ok ⟨[], none⟩) (.error "invalid character '<' looking for beginning of value")
    (.ok ⟨[], none⟩)

/-- All three lists hold records. -/
def worldAllPresent : World :=
  exampleWorld noon noon emptyBody emptyBody emptyBody 200
    (.ok ⟨[sampleActivity], none⟩) (.ok ⟨[sampleSleep], none⟩) (.ok ⟨[sampleSleepScore], none⟩)

/-- The activity body is not JSON. -/
def worldBadActivity : World :=
  exampleWorld noon noon htmlBody emptyBody emptyBody 200
    (.error "invalid character '<' looking for beginning of value") (.ok ⟨[], none⟩)
    (.ok ⟨[], none⟩)

/-- The sleep list is empty and the messaging API answers 500. -/
def worldSendRefused : World :=
  exampleWorld noon noon emptyBody emptyBody emptyBody 500
    (.ok ⟨[sampleActivity], none⟩) (.ok ⟨[], none⟩) (.ok ⟨[sampleSleepScore], none⟩)

/-- The clock reads 23:59:59 of 2024-01-01 in Tokyo, then 00:00:00 of 2024-01-02. -/
def worldMidnight : World :=
  exampleWorld ⟨1704121199, 0⟩ ⟨1704121200, 0⟩ emptyBody emptyBody emptyBody 200
    (.ok ⟨[sampleActivity], none⟩) (.ok ⟨[sampleSleep], none⟩) (.ok ⟨[sampleSleepScore], none⟩)

/-- The request `sendLineMessage` hands to the client. -/
def pushHttpRequest (token userId message : GoString) : HttpRequest :=
  { method := "POST", url := "https://api.line.me/v2/bot/message/push",
    contentType := some "application/json", authorization := goString "Bearer " ++ token,
    body := some (marshalPushRequest
      { To := userId, Messages := [{ MsgType := goString "text", Text := message }] }),
    timeout := none }

/-- Spec: a time of day and date written `YYYY-MM-DD HH:MM:SS`, in the location of `t`. -/
def dateTimeText (t : Time) : String :=
  String.mk (appendInt t.Year 4) ++ "-" ++ String.mk (appendInt t.Month 2) ++ "-"
    ++ String.mk (appendInt t.Day 2) ++ " " ++ String.mk (appendInt t.Hour 2) ++ ":"
    ++ String.mk (appendInt t.Minute 2) ++ ":" ++ String.mk (appendInt t.Second 2)

/-- The UTF-8 encoding of a sequence of characters. -/
def utf8 (cs : List Char) : GoString := cs.flatMap fun c => encodeRune c.toNat

/-- What `appendString` writes for one character of a valid string. -/
def jsonChar (c : Char) : GoString :=
  if c.toNat < 0x80 then
    if htmlSafe c.toNat then [c.toNat] else escapeByte c.toNat
  else if c.toNat = 0x2028 ∨ c.toNat = 0x2029 then
    goString "\\u202" ++ [hexDigit (c.toNat % 16)]
  else encodeRune c.toNat

/-- The JSON string literal of the characters `cs`, followed by `rest`. -/
def quoted (cs : List Char) (rest : GoString) : GoString :=
  0x22 :: (cs.flatMap jsonChar ++ 0x22 :: rest)

/-- The payload `sendLineMessage` builds. -/
def pushPayload (userId message : GoString) : PushRequest :=
  { To := userId, Messages := [{ MsgType := goString "text", Text := message }] }

/-! ## Notions of the specification of the formatting -/

/-- Spec: the decimal rendering of n, zero-padded to at least two digits. -/
def zeroPad2 (n : Nat) : String :=
  if n < 10 then "0" ++ Nat.repr n else Nat.repr n

/-- The number a sequence of decimal digits denotes. -/
def digitsValue (cs : List Char) : Nat := cs.foldl (fun acc c => acc * 10 + (c.toNat - 48)) 0


/-! # Properties -/

/-! ## Decimal rendering and durations (C4, C10) -/

theorem decimalLoop_fuel (f : Nat) : ∀ g u, u < f → u < g → decimalLoop f u = decimalLoop g u := by
  induction f with
  | zero => intro g u h; omega
  | succ f ih =>
    intro g u h hg
    cases g with
    | zero => omega
    | succ g =>
      by_cases hu : u < 10
      · simp [decimalLoop, hu]
      · simp only [decimalLoop, hu, if_false]
        rw [ih g (u / 10) (by omega) (by omega)]

theorem decimal_lt (u : Nat) (h : u < 10) : decimal u = [Nat.digitChar u] := by
  simp [decimal, decimalLoop, h]

theorem decimal_ge (u : Nat) (h : 10 ≤ u) :
    decimal u = decimal (u / 10) ++ [Nat.digitChar (u % 10)] := by
  have hu : ¬ u < 10 := by omega
  unfold decimal
  rw [decimalLoop_fuel (u / 10 + 1) u (u / 10) (by omega) (by omega)]
  simp only [decimalLoop, hu, if_false]

theorem decimal_length_pos (u : Nat) : 1 ≤ (decimal u).length := by
  by_cases h : u < 10
  · simp [decimal_lt u h]
  · rw [decimal_ge u (by omega)]; simp

theorem decimal_length_ge (u : Nat) (h : 10 ≤ u) : 2 ≤ (decimal u).length := by
  rw [decimal_ge u h]
  have := decimal_length_pos (u / 10)
  simp; omega

theorem toDigitsCore_eq (fuel : Nat) : ∀ u acc, u < fuel →
    Nat.toDigitsCore 10 fuel u acc = decimal u ++ acc := by
  induction fuel with
  | zero => intro u acc h; omega
  | succ f ih =>
    intro u acc h
    by_cases hu : u < 10
    · have : u / 10 = 0 := by omega
      simp [Nat.toDigitsCore, this, decimal_lt u hu, Nat.mod_eq_of_lt hu]
    · have h0 : ¬ u / 10 = 0 := by omega
      have h1 : u / 10 < f := by omega
      simp only [Nat.toDigitsCore, h0, if_false]
      rw [ih _ _ h1, decimal_ge u (by omega)]
      simp

theorem toDigits_eq_decimal (u : Nat) : Nat.toDigits 10 u = decimal u := by
  simp [Nat.toDigits, toDigitsCore_eq (u + 1) u [] (by omega)]

theorem digitChar_toNat (d : Nat) (h : d < 10) : (Nat.digitChar d).toNat - 48 = d := by
  interval_cases d <;> rfl

theorem digitsValue_append (cs : List Char) (c : Char) :
    digitsValue (cs ++ [c]) = digitsValue cs * 10 + (c.toNat - 48) := by
  simp [digitsValue, List.foldl_append]

theorem digitsValue_decimal (u : Nat) : digitsValue (decimal u) = u := by
  induction u using Nat.strong_induction_on with
  | _ u ih =>
    by_cases h : u < 10
    · rw [decimal_lt u h]
      simp [digitsValue, digitChar_toNat u h]
    · rw [decimal_ge u (by omega), digitsValue_append, ih (u / 10) (by omega),
        digitChar_toNat _ (Nat.mod_lt _ (by decide))]
      omega

theorem repr_eq_decimal (u : Nat) : Nat.repr u = String.mk (decimal u) := by
  simp [Nat.repr, List.asString, toDigits_eq_decimal]

theorem fmtInteger_nat (w : Nat) (k : Nat) :
    fmtInteger (some w) (k : Int) = List.replicate (w - (decimal k).length) '0' ++ decimal k := by
  have : ¬ ((k : Int) < 0) := by omega
  simp [fmtInteger, this]

theorem fmtInteger_two (k : Nat) : String.mk (fmtInteger (some 2) (k : Int)) = zeroPad2 k := by
  rw [fmtInteger_nat]
  unfold zeroPad2
  by_cases h : k < 10
  · simp only [h, if_true, repr_eq_decimal, decimal_lt k h]
    rfl
  · have := decimal_length_ge k (by omega)
    have h0 : 2 - (decimal k).length = 0 := by omega
    simp [h, repr_eq_decimal, h0]

theorem zeroPad2_data (k : Nat) :
    (zeroPad2 k).data = if k < 10 then ['0', Nat.digitChar k] else decimal k := by
  unfold zeroPad2
  by_cases h : k < 10
  · simp [h, repr_eq_decimal, decimal_lt k h]
  · simp [h, repr_eq_decimal]

theorem zeroPad2_length_ge (k : Nat) : 2 ≤ (zeroPad2 k).length := by
  show 2 ≤ (zeroPad2 k).data.length
  rw [zeroPad2_data]
  by_cases h : k < 10
  · simp [h]
  · simpa [h] using decimal_length_ge k (by omega)

theorem zeroPad2_length_two (k : Nat) (h : k < 100) : (zeroPad2 k).length = 2 := by
  show (zeroPad2 k).data.length = 2
  rw [zeroPad2_data]
  by_cases h1 : k < 10
  · simp [h1]
  · have h2 : k / 10 < 10 := by omega
    simp [h1, decimal_ge k (by omega), decimal_lt _ h2]

theorem formatSecondsToTime_eq (n : Nat) :
    formatSecondsToTime (n : Int)
      = zeroPad2 (n / 3600) ++ "h:" ++ zeroPad2 (n % 3600 / 60) ++ "m:"
          ++ zeroPad2 (n % 60) ++ "s" := by
  have e : formatSecondsToTime (n : Int)
      = String.mk (fmtInteger (some 2) (Int.tdiv n 3600)) ++ "h:"
        ++ String.mk (fmtInteger (some 2) (Int.tdiv (Int.tmod n 3600) 60)) ++ "m:"
        ++ String.mk (fmtInteger (some 2) (Int.tmod n 60)) ++ "s" := by
    apply String.ext
    simp only [String.data_append, List.append_assoc, List.cons_append, List.nil_append]
    rfl
  rw [e]
  have h1 : Int.tdiv (n : Int) 3600 = ((n / 3600 : Nat) : Int) := rfl
  have h2 : Int.tdiv (Int.tmod (n : Int) 3600) 60 = ((n % 3600 / 60 : Nat) : Int) := rfl
  have h3 : Int.tmod (n : Int) 60 = ((n % 60 : Nat) : Int) := rfl
  rw [h1, h2, h3, fmtInteger_two, fmtInteger_two, fmtInteger_two]

/-- C4: for `0 ≤ seconds`, `formatSecondsToTime seconds` is `H ++ "h:" ++ M ++ "m:" ++ S ++ "s"`
with `H` the decimal rendering of `seconds / 3600` zero-padded to at least two digits (no
reduction modulo 24), `M` that of `seconds % 3600 / 60` and `S` that of the remainder modulo 60
(which is `seconds % 60`), both of exactly two digits; the three sample values. -/
theorem formatSecondsToTime_spec (seconds : Int) (h : 0 ≤ seconds) :
    formatSecondsToTime seconds
      = zeroPad2 (seconds.toNat / 3600) ++ "h:" ++ zeroPad2 (seconds.toNat % 3600 / 60) ++ "m:"
          ++ zeroPad2 (seconds.toNat % 3600 % 60) ++ "s"
    ∧ seconds.toNat % 3600 % 60 = seconds.toNat % 60
    ∧ 2 ≤ (zeroPad2 (seconds.toNat / 3600)).length
    ∧ (zeroPad2 (seconds.toNat % 3600 / 60)).length = 2
    ∧ (zeroPad2 (seconds.toNat % 3600 % 60)).length = 2
    ∧ formatSecondsToTime 0 = "00h:00m:00s"
    ∧ formatSecondsToTime 3661 = "01h:01m:01s"
    ∧ formatSecondsToTime 90000 = "25h:00m:00s" := by
  obtain ⟨n, rfl⟩ := Int.eq_ofNat_of_zero_le h
  have e : n % 3600 % 60 = n % 60 := by omega
  refine ⟨?_, by simpa using e, zeroPad2_length_ge _, zeroPad2_length_two _ ?_,
    zeroPad2_length_two _ ?_, by decide, by decide, by decide⟩
  · simp only [Int.toNat_ofNat, e]
    exact formatSecondsToTime_eq n
  · simp only [Int.toNat_ofNat]; omega
  · simp only [Int.toNat_ofNat]; omega

theorem formatSecondsToTime_spec_witness :
    (0 : Int) ≤ 86399
    ∧ formatSecondsToTime 86399
      = zeroPad2 ((86399 : Int).toNat / 3600) ++ "h:"
          ++ zeroPad2 ((86399 : Int).toNat % 3600 / 60) ++ "m:"
          ++ zeroPad2 ((86399 : Int).toNat % 3600 % 60) ++ "s" :=
  ⟨by decide, (formatSecondsToTime_spec 86399 (by decide)).1⟩

theorem digitsValue_zeroPad2 (k : Nat) : digitsValue (zeroPad2 k).data = k := by
  rw [zeroPad2_data]
  by_cases h : k < 10
  · simp [h, digitsValue, digitChar_toNat k h]
  · simp [h, digitsValue_decimal]

theorem zeroPad2_injective (a b : Nat) (h : zeroPad2 a = zeroPad2 b) : a = b := by
  have := congrArg (fun s => digitsValue s.data) h
  simpa [digitsValue_zeroPad2] using this

theorem formatSecondsToTime_nat_injective (a b : Nat)
    (h : formatSecondsToTime (a : Int) = formatSecondsToTime (b : Int)) : a = b := by
  rw [formatSecondsToTime_eq, formatSecondsToTime_eq] at h
  have hd := congrArg String.data h
  simp only [String.data_append, List.append_assoc] at hd
  have la : (zeroPad2 (a % 3600 / 60)).data.length = 2 := zeroPad2_length_two _ (by omega)
  have lb : (zeroPad2 (b % 3600 / 60)).data.length = 2 := zeroPad2_length_two _ (by omega)
  have sa : (zeroPad2 (a % 60)).data.length = 2 := zeroPad2_length_two _ (by omega)
  have sb : (zeroPad2 (b % 60)).data.length = 2 := zeroPad2_length_two _ (by omega)
  obtain ⟨h1, h2⟩ := List.append_inj' hd (by simp [la, lb, sa, sb])
  obtain ⟨_, h3⟩ := List.append_inj h2 rfl
  obtain ⟨h4, h5⟩ := List.append_inj h3 (by rw [la, lb])
  obtain ⟨_, h6⟩ := List.append_inj h5 rfl
  obtain ⟨h7, _⟩ := List.append_inj h6 (by rw [sa, sb])
  have e1 := zeroPad2_injective _ _ (String.ext h1)
  have e2 := zeroPad2_injective _ _ (String.ext h4)
  have e3 := zeroPad2_injective _ _ (String.ext h7)
  omega

/-- C10: for `0 ≤ seconds`, the minutes and seconds fields computed by `formatSecondsToTime`
lie in 0..59, the three fields recompose `seconds`, and no other non-negative duration has
the same rendering. -/
theorem formatSecondsToTime_lossless (seconds : Int) (h : 0 ≤ seconds) :
    (0 ≤ Int.tdiv (Int.tmod seconds 3600) 60 ∧ Int.tdiv (Int.tmod seconds 3600) 60 ≤ 59
      ∧ 0 ≤ Int.tmod seconds 60 ∧ Int.tmod seconds 60 ≤ 59
      ∧ Int.tdiv seconds 3600 * 3600 + Int.tdiv (Int.tmod seconds 3600) 60 * 60
          + Int.tmod seconds 60 = seconds)
    ∧ ∀ other : Int, 0 ≤ other →
        formatSecondsToTime seconds = formatSecondsToTime other → seconds = other := by
  obtain ⟨n, rfl⟩ := Int.eq_ofNat_of_zero_le h
  have h1 : Int.tdiv (n : Int) 3600 = ((n / 3600 : Nat) : Int) := rfl
  have h2 : Int.tdiv (Int.tmod (n : Int) 3600) 60 = ((n % 3600 / 60 : Nat) : Int) := rfl
  have h3 : Int.tmod (n : Int) 60 = ((n % 60 : Nat) : Int) := rfl
  refine ⟨?_, ?_⟩
  · rw [h1, h2, h3]
    omega
  · intro other ho heq
    obtain ⟨m, rfl⟩ := Int.eq_ofNat_of_zero_le ho
    exact congrArg Int.ofNat (formatSecondsToTime_nat_injective n m heq)

theorem formatSecondsToTime_lossless_witness :
    (0 : Int) ≤ 3661
    ∧ Int.tdiv 3661 3600 * 3600 + Int.tdiv (Int.tmod 3661 3600) 60 * 60 + Int.tmod 3661 60
        = (3661 : Int) :=
  ⟨by decide, (formatSecondsToTime_lossless 3661 (by decide)).1.2.2.2.2⟩

/-! ## UTF-8 -/

theorem char_valid (c : Char) : c.toNat < 0xD800 ∨ (0xDFFF < c.toNat ∧ c.toNat < 0x110000) :=
  c.valid

theorem decodeRune_two (p0 b1 lo hi : Nat) (tail : GoString) (h0 : ¬ p0 < 0x80)
    (hl : leadInfo p0 = some (2, lo, hi)) (h1 : lo ≤ b1 ∧ b1 ≤ hi) :
    decodeRune (p0 :: b1 :: tail) = (p0 % 32 * 64 + b1 % 64, 2) := by
  have c1 : ¬ ((b1 :: tail).length + 1 < 2) := by simp
  have c2 : ¬ (b1 < lo ∨ hi < b1) := by omega
  simp only [decodeRune, h0, hl, c1, c2, if_false, Nat.le_refl, if_true]

theorem decodeRune_three (p0 b1 b2 lo hi : Nat) (tail : GoString) (h0 : ¬ p0 < 0x80)
    (hl : leadInfo p0 = some (3, lo, hi)) (h1 : lo ≤ b1 ∧ b1 ≤ hi)
    (h2 : 0x80 ≤ b2 ∧ b2 ≤ 0xBF) :
    decodeRune (p0 :: b1 :: b2 :: tail) = (p0 % 16 * 4096 + b1 % 64 * 64 + b2 % 64, 3) := by
  have c1 : ¬ ((b1 :: b2 :: tail).length + 1 < 3) := by simp
  have c2 : ¬ (b1 < lo ∨ hi < b1) := by omega
  have c3 : ¬ (b2 < 0x80 ∨ 0xBF < b2) := by omega
  have c4 : ¬ (3 ≤ 2) := by omega
  simp only [decodeRune, h0, hl, c1, c2, c3, c4, if_false, Nat.le_refl, if_true]

theorem decodeRune_four (p0 b1 b2 b3 lo hi : Nat) (tail : GoString) (h0 : ¬ p0 < 0x80)
    (hl : leadInfo p0 = some (4, lo, hi)) (h1 : lo ≤ b1 ∧ b1 ≤ hi)
    (h2 : 0x80 ≤ b2 ∧ b2 ≤ 0xBF) (h3 : 0x80 ≤ b3 ∧ b3 ≤ 0xBF) :
    decodeRune (p0 :: b1 :: b2 :: b3 :: tail)
      = (p0 % 8 * 262144 + b1 % 64 * 4096 + b2 % 64 * 64 + b3 % 64, 4) := by
  have c1 : ¬ ((b1 :: b2 :: b3 :: tail).length + 1 < 4) := by simp
  have c2 : ¬ (b1 < lo ∨ hi < b1) := by omega
  have c3 : ¬ (b2 < 0x80 ∨ 0xBF < b2) := by omega
  have c5 : ¬ (b3 < 0x80 ∨ 0xBF < b3) := by omega
  have c4 : ¬ (4 ≤ 2) := by omega
  have c6 : ¬ (4 ≤ 3) := by omega
  simp only [decodeRune, h0, hl, c1, c2, c3, c4, c5, c6, if_false]

theorem leadInfo_three (p0 : Nat) (h : 0xE0 ≤ p0 ∧ p0 ≤ 0xEF) :
    leadInfo p0 = some (3, if p0 = 0xE0 then 0xA0 else 0x80, if p0 = 0xED then 0x9F else 0xBF) := by
  unfold leadInfo
  have a0 : ¬ (0xC2 ≤ p0 ∧ p0 ≤ 0xDF) := by omega
  by_cases e0 : p0 = 0xE0
  · simp [e0]
  by_cases ed : p0 = 0xED
  · simp [ed]
  have a1 : 0xE1 ≤ p0 ∧ p0 ≤ 0xEF := by omega
  simp [a0, e0, ed, a1]

theorem leadInfo_four (p0 : Nat) (h : 0xF0 ≤ p0 ∧ p0 ≤ 0xF4) :
    leadInfo p0 = some (4, if p0 = 0xF0 then 0x90 else 0x80, if p0 = 0xF4 then 0x8F else 0xBF) := by
  unfold leadInfo
  have a0 : ¬ (0xC2 ≤ p0 ∧ p0 ≤ 0xDF) := by omega
  have a1 : ¬ (0xE1 ≤ p0 ∧ p0 ≤ 0xEF) := by omega
  have a2 : ¬ p0 = 0xE0 := by omega
  have a3 : ¬ p0 = 0xED := by omega
  by_cases e0 : p0 = 0xF0
  · simp [e0]
  by_cases e4 : p0 = 0xF4
  · simp [e4]
  have a4 : 0xF1 ≤ p0 ∧ p0 ≤ 0xF3 := by omega
  simp [a0, a1, a2, a3, e0, e4, a4]

theorem decodeRune_encodeRune (n : Nat) (hv : n < 0xD800 ∨ (0xDFFF < n ∧ n < 0x110000))
    (tail : GoString) :
    decodeRune (encodeRune n ++ tail) = (n, (encodeRune n).length) := by
  unfold encodeRune
  by_cases h1 : n ≤ 0x7F
  · have : n < 0x80 := by omega
    simp [h1, decodeRune, this]
  by_cases h2 : n ≤ 0x7FF
  · simp only [h1, h2, if_true, if_false, List.cons_append, List.nil_append, List.length_cons,
      List.length_nil]
    rw [decodeRune_two _ _ 0x80 0xBF _ (by omega) (by simp [leadInfo]; omega) (by omega)]
    congr 1
    omega
  have h3 : ¬ (0x10FFFF < n ∨ (0xD800 ≤ n ∧ n ≤ 0xDFFF)) := by omega
  by_cases h4 : n ≤ 0xFFFF
  · simp only [h1, h2, h3, h4, if_true, if_false, List.cons_append, List.nil_append,
      List.length_cons, List.length_nil]
    rw [decodeRune_three _ _ _ _ _ _ (by omega) (leadInfo_three _ (by omega))
      (by split_ifs <;> omega) (by omega)]
    congr 1
    omega
  · simp only [h1, h2, h3, h4, if_true, if_false, List.cons_append, List.nil_append,
      List.length_cons, List.length_nil]
    rw [decodeRune_four _ _ _ _ _ _ _ (by omega) (leadInfo_four _ (by omega))
      (by split_ifs <;> omega) (by omega) (by omega)]
    congr 1
    omega

/-! ## JSON strings: encoding then decoding -/

theorem goString_eq_utf8 (s : String) : goString s = utf8 s.data := rfl

theorem utf8_cons (c : Char) (cs : List Char) : utf8 (c :: cs) = encodeRune c.toNat ++ utf8 cs := by
  simp [utf8]

theorem encodeRune_head (n : Nat) (h : ¬ n < 0x80) (hv : n < 0xD800 ∨ (0xDFFF < n ∧ n < 0x110000)) :
    ∃ b b1 r, encodeRune n = b :: b1 :: r ∧ ¬ b < 0x80 := by
  unfold encodeRune
  have h1 : ¬ n ≤ 0x7F := by omega
  by_cases h2 : n ≤ 0x7FF
  · refine ⟨0xC0 + n / 64, 0x80 + n % 64, [], ?_, by omega⟩
    simp only [h1, h2, if_true, if_false]
  have h3 : ¬ (0x10FFFF < n ∨ (0xD800 ≤ n ∧ n ≤ 0xDFFF)) := by omega
  by_cases h4 : n ≤ 0xFFFF
  · refine ⟨0xE0 + n / 4096, 0x80 + n / 64 % 64, [0x80 + n % 64], ?_, by omega⟩
    simp only [h1, h2, h3, h4, if_true, if_false]
  · refine ⟨0xF0 + n / 262144, 0x80 + n / 4096 % 64, [0x80 + n / 64 % 64, 0x80 + n % 64], ?_,
      by omega⟩
    simp only [h1, h2, h3, h4, if_true, if_false]

theorem appendStringLoop_ascii (fuel n : Nat) (h : n < 0x80) (tail : GoString) :
    appendStringLoop (fuel + 1) (n :: tail)
      = (if htmlSafe n then [n] else escapeByte n) ++ appendStringLoop fuel tail := by
  simp only [appendStringLoop, h, if_true]

theorem appendStringLoop_multibyte (fuel n : Nat) (h : ¬ n < 0x80)
    (hv : n < 0xD800 ∨ (0xDFFF < n ∧ n < 0x110000)) (tail : GoString) :
    appendStringLoop (fuel + 1) (encodeRune n ++ tail)
      = (if n = 0x2028 ∨ n = 0x2029 then goString "\\u202" ++ [hexDigit (n % 16)]
          else encodeRune n) ++ appendStringLoop fuel tail := by
  obtain ⟨b, b1, r, hb, hge⟩ := encodeRune_head n h hv
  have hd := decodeRune_encodeRune n hv tail
  rw [hb] at hd ⊢
  have hsz : ¬ (n = RuneError ∧ (b :: b1 :: r).length = 1) := by simp
  have htake : List.take (b :: b1 :: r).length (b :: (b1 :: r ++ tail)) = b :: b1 :: r := by
    simp
  have hdrop : List.drop (b :: b1 :: r).length (b :: (b1 :: r ++ tail)) = tail := by
    simp
  simp only [List.cons_append] at hd ⊢
  simp only [appendStringLoop, hge, if_false, hd, hsz, htake, hdrop]
  split_ifs <;> simp

theorem appendStringLoop_utf8 (cs : List Char) :
    ∀ fuel, cs.length ≤ fuel → appendStringLoop fuel (utf8 cs) = cs.flatMap jsonChar := by
  induction cs with
  | nil =>
    intro fuel _
    cases fuel <;> simp [utf8, appendStringLoop]
  | cons c cs ih =>
    intro fuel hf
    obtain ⟨f, rfl⟩ : ∃ f, fuel = f + 1 := ⟨fuel - 1, by simp at hf; omega⟩
    have hf' : cs.length ≤ f := by simp at hf; omega
    rw [utf8_cons, List.flatMap_cons]
    by_cases h : c.toNat < 0x80
    · have e : encodeRune c.toNat = [c.toNat] := by
        have : c.toNat ≤ 0x7F := by omega
        simp [encodeRune, this]
      rw [e, List.singleton_append, appendStringLoop_ascii _ _ h, ih f hf']
      simp [jsonChar, h]
    · rw [appendStringLoop_multibyte _ _ h (char_valid c), ih f hf']
      simp [jsonChar, h]

theorem utf8_length_ge (cs : List Char) : cs.length ≤ (utf8 cs).length := by
  induction cs with
  | nil => simp [utf8]
  | cons c cs ih =>
    rw [utf8_cons, List.length_append, List.length_cons]
    have : 1 ≤ (encodeRune c.toNat).length := by
      unfold encodeRune
      split_ifs <;> simp
    omega

theorem appendString_utf8 (cs : List Char) :
    appendString (utf8 cs) = 0x22 :: (cs.flatMap jsonChar ++ [0x22]) := by
  unfold appendString
  rw [appendStringLoop_utf8 cs _ (utf8_length_ge cs)]
  rfl

theorem hexVal_hexDigit (k : Nat) (h : k < 16) : hexVal (hexDigit k) = some k := by
  interval_cases k <;> rfl

theorem getu4_escape (n : Nat) (h : n < 0x100) (tail : GoString) :
    getu4 (0x5C :: 0x75 :: 0x30 :: 0x30 :: hexDigit (n / 16) :: hexDigit (n % 16) :: tail)
      = some n := by
  have h1 := hexVal_hexDigit (n / 16) (by omega)
  have h2 := hexVal_hexDigit (n % 16) (by omega)
  have h0 : hexVal 0x30 = some 0 := rfl
  simp only [getu4, and_self, if_true, h0, h1, h2]
  congr 1
  omega

theorem unquoteLoop_plain (n fuel : Nat) (tail : GoString) (h1 : n ≠ 0x22) (h2 : n ≠ 0x5C)
    (h3 : ¬ n < 0x20) (h4 : n < 0x80) :
    unquoteLoop (fuel + 1) (n :: tail)
      = (unquoteLoop fuel tail).map fun r => (n :: r.1, r.2) := by
  simp only [unquoteLoop, h1, h2, h3, h4, if_true, if_false]

theorem unquoteLoop_simple (e x fuel : Nat) (tail : GoString) (h1 : e ≠ 0x75)
    (h2 : simpleEscape e = some x) :
    unquoteLoop (fuel + 1) (0x5C :: e :: tail)
      = (unquoteLoop fuel tail).map fun r => (x :: r.1, r.2) := by
  have a1 : ¬ ((0x5C : Nat) = 0x22) := by decide
  simp only [unquoteLoop, a1, h1, h2, if_true, if_false]

theorem unquoteLoop_u00 (n fuel : Nat) (tail : GoString) (h : n < 0x80) :
    unquoteLoop (fuel + 1)
        (0x5C :: 0x75 :: 0x30 :: 0x30 :: hexDigit (n / 16) :: hexDigit (n % 16) :: tail)
      = (unquoteLoop fuel tail).map fun r => (n :: r.1, r.2) := by
  have a1 : ¬ ((0x5C : Nat) = 0x22) := by decide
  have a2 : isSurrogate n = false := by simp [isSurrogate]; omega
  have a3 : encodeRune n = [n] := by
    have : n ≤ 0x7F := by omega
    simp [encodeRune, this]
  simp only [unquoteLoop, a1, if_true, if_false, getu4_escape n (by omega) tail, a2,
    Bool.false_eq_true, List.drop_succ_cons, List.drop_zero, a3, List.singleton_append]

theorem escapeByte_cases (n : Nat) :
    (n = 0x5C ∨ n = 0x22) ∧ escapeByte n = [0x5C, n]
    ∨ n = 0x08 ∧ escapeByte n = [0x5C, 0x62]
    ∨ n = 0x0C ∧ escapeByte n = [0x5C, 0x66]
    ∨ n = 0x0A ∧ escapeByte n = [0x5C, 0x6E]
    ∨ n = 0x0D ∧ escapeByte n = [0x5C, 0x72]
    ∨ n = 0x09 ∧ escapeByte n = [0x5C, 0x74]
    ∨ escapeByte n = [0x5C, 0x75, 0x30, 0x30, hexDigit (n / 16), hexDigit (n % 16)] := by
  unfold escapeByte
  by_cases h1 : n = 0x5C ∨ n = 0x22
  · exact Or.inl ⟨h1, by simp only [h1, if_true]⟩
  by_cases h2 : n = 0x08
  · subst h2; exact Or.inr (Or.inl ⟨rfl, rfl⟩)
  by_cases h3 : n = 0x0C
  · subst h3; exact Or.inr (Or.inr (Or.inl ⟨rfl, rfl⟩))
  by_cases h4 : n = 0x0A
  · subst h4; exact Or.inr (Or.inr (Or.inr (Or.inl ⟨rfl, rfl⟩)))
  by_cases h5 : n = 0x0D
  · subst h5; exact Or.inr (Or.inr (Or.inr (Or.inr (Or.inl ⟨rfl, rfl⟩))))
  by_cases h6 : n = 0x09
  · subst h6; exact Or.inr (Or.inr (Or.inr (Or.inr (Or.inr (Or.inl ⟨rfl, rfl⟩)))))
  · refine Or.inr (Or.inr (Or.inr (Or.inr (Or.inr (Or.inr ?_)))))
    simp only [h1, h2, h3, h4, h5, h6, if_false]
    rfl

theorem unquoteLoop_multibyte (b fuel : Nat) (rest : GoString) (h : ¬ b < 0x80) :
    unquoteLoop (fuel + 1) (b :: rest)
      = (unquoteLoop fuel ((b :: rest).drop (decodeRune (b :: rest)).2)).map fun r =>
          (encodeRune (decodeRune (b :: rest)).1 ++ r.1, r.2) := by
  have a1 : ¬ b = 0x22 := by omega
  have a2 : ¬ b = 0x5C := by omega
  have a4 : ¬ b < 0x20 := by omega
  simp only [unquoteLoop, a1, a2, a4, h, if_false]

/-- One step of `unquoteLoop` undoes what `appendString` wrote for one character. -/
theorem unquoteLoop_jsonChar (c : Char) (fuel : Nat) (tail : GoString) :
    unquoteLoop (fuel + 1) (jsonChar c ++ tail)
      = (unquoteLoop fuel tail).map fun r => (encodeRune c.toNat ++ r.1, r.2) := by
  have hv := char_valid c
  unfold jsonChar
  generalize c.toNat = n at hv
  by_cases h : n < 0x80
  · have a3 : encodeRune n = [n] := by
      have : n ≤ 0x7F := by omega
      simp [encodeRune, this]
    simp only [h, if_true, a3, List.singleton_append]
    by_cases hs : htmlSafe n = true
    · simp only [hs, if_true, List.singleton_append]
      simp [htmlSafe] at hs
      exact unquoteLoop_plain n fuel tail (by omega) (by omega) (by omega) h
    · simp only [hs, if_false]
      rcases escapeByte_cases n with ⟨h1, e⟩ | ⟨h1, e⟩ | ⟨h1, e⟩ | ⟨h1, e⟩ | ⟨h1, e⟩ | ⟨h1, e⟩ | e
      · rw [e]
        exact unquoteLoop_simple n n fuel tail (by omega) (by
          rcases h1 with h1 | h1 <;> subst h1 <;> rfl)
      · rw [e, h1]; exact unquoteLoop_simple _ _ fuel tail (by decide) rfl
      · rw [e, h1]; exact unquoteLoop_simple _ _ fuel tail (by decide) rfl
      · rw [e, h1]; exact unquoteLoop_simple _ _ fuel tail (by decide) rfl
      · rw [e, h1]; exact unquoteLoop_simple _ _ fuel tail (by decide) rfl
      · rw [e, h1]; exact unquoteLoop_simple _ _ fuel tail (by decide) rfl
      · rw [e]
        exact unquoteLoop_u00 n fuel tail h
  · simp only [h, if_false]
    by_cases h8 : n = 0x2028
    · subst h8; rfl
    by_cases h9 : n = 0x2029
    · subst h9; rfl
    have hn : ¬ (n = 0x2028 ∨ n = 0x2029) := by omega
    simp only [hn, if_false]
    obtain ⟨b, b1, r, hb, hge⟩ := encodeRune_head n h hv
    have hd := decodeRune_encodeRune n hv tail
    rw [hb] at hd
    simp only [List.cons_append] at hd
    have a1 : ¬ b = 0x22 := by omega
    have a2 : ¬ b = 0x5C := by omega
    have a4 : ¬ b < 0x20 := by omega
    have hdrop : List.drop (b :: b1 :: r).length (b :: b1 :: (r ++ tail)) = tail := by
      simp
    have hstep := unquoteLoop_multibyte b fuel (b1 :: (r ++ tail)) hge
    rw [hd] at hstep
    simp only [hdrop] at hstep
    have e : encodeRune n ++ tail = b :: b1 :: (r ++ tail) := by rw [hb]; rfl
    rw [e, hstep]

theorem unquoteLoop_utf8 (cs : List Char) (rest : GoString) :
    ∀ fuel, cs.length < fuel →
      unquoteLoop fuel (cs.flatMap jsonChar ++ 0x22 :: rest) = some (utf8 cs, rest) := by
  induction cs with
  | nil =>
    intro fuel hf
    obtain ⟨f, rfl⟩ : ∃ f, fuel = f + 1 := ⟨fuel - 1, by omega⟩
    simp [unquoteLoop, utf8]
  | cons c cs ih =>
    intro fuel hf
    obtain ⟨f, rfl⟩ : ∃ f, fuel = f + 1 := ⟨fuel - 1, by omega⟩
    have hf' : cs.length < f := by simp at hf; omega
    rw [List.flatMap_cons, List.append_assoc, unquoteLoop_jsonChar, ih f hf', utf8_cons]
    rfl

theorem jsonChar_length (c : Char) : 1 ≤ (jsonChar c).length := by
  unfold jsonChar
  split_ifs
  · simp
  · rcases escapeByte_cases c.toNat with ⟨_, e⟩ | ⟨_, e⟩ | ⟨_, e⟩ | ⟨_, e⟩ | ⟨_, e⟩ | ⟨_, e⟩ | e
      <;> rw [e] <;> simp
  · simp
  · unfold encodeRune
    split_ifs <;> simp

theorem flatMap_jsonChar_length (cs : List Char) : cs.length ≤ (cs.flatMap jsonChar).length := by
  induction cs with
  | nil => simp
  | cons c cs ih =>
    rw [List.flatMap_cons, List.length_append, List.length_cons]
    have := jsonChar_length c
    omega

/-- Reading back a string literal that `appendString` wrote for a valid string. -/
theorem unquote_appendString (cs : List Char) (rest : GoString) :
    unquote (cs.flatMap jsonChar ++ 0x22 :: rest) = some (utf8 cs, rest) := by
  unfold unquote
  apply unquoteLoop_utf8
  have := flatMap_jsonChar_length cs
  simp only [List.length_append, List.length_cons]
  omega

/-! ## The push request: encoding then decoding (C7) -/

theorem skipSpace_quoted (cs : List Char) (rest : GoString) :
    skipSpace (quoted cs rest) = quoted cs rest := by
  simp [quoted, skipSpace, isSpace]

theorem parseValue_quoted (f : Nat) (cs : List Char) (rest : GoString) :
    parseValue (f + 1) (quoted cs rest) = some (Json.str (utf8 cs), rest) := by
  rw [parseValue, skipSpace_quoted]
  simp only [quoted, if_true, unquote_appendString, Option.map_some']

theorem parseMembers_comma (f : Nat) (ks : List Char) (vrest r5 : GoString) (v : Json)
    (hv : parseValue f vrest = some (v, 0x2C :: r5)) :
    parseMembers (f + 1) (quoted ks (0x3A :: vrest))
      = (parseMembers f r5).map fun r => ((utf8 ks, v) :: r.1, r.2) := by
  rw [parseMembers, skipSpace_quoted]
  simp only [quoted, ne_eq, not_true_eq_false, if_false, unquote_appendString]
  simp [skipSpace, isSpace, hv]

theorem parseMembers_last (f : Nat) (ks : List Char) (vrest r5 : GoString) (v : Json)
    (hv : parseValue f vrest = some (v, 0x7D :: r5)) :
    parseMembers (f + 1) (quoted ks (0x3A :: vrest)) = some ([(utf8 ks, v)], r5) := by
  rw [parseMembers, skipSpace_quoted]
  simp only [quoted, ne_eq, not_true_eq_false, if_false, unquote_appendString]
  simp [skipSpace, isSpace, hv]

theorem parseValue_object (f : Nat) (cs : List Char) (rest r : GoString)
    (ms : List (GoString × Json))
    (h : parseMembers f (quoted cs rest) = some (ms, r)) :
    parseValue (f + 1) (0x7B :: quoted cs rest) = some (Json.obj ms, r) := by
  rw [parseValue]
  simp [skipSpace, isSpace, skipSpace_quoted, h]

theorem parseValue_array_one (f : Nat) (data r2 : GoString) (v : Json)
    (h : parseValue f (0x7B :: data) = some (v, 0x5D :: r2)) :
    parseValue (f + 2) (0x5B :: 0x7B :: data) = some (Json.arr [v], r2) := by
  rw [parseValue]
  simp [skipSpace, isSpace, parseElements, h]

theorem marshalPushRequest_eq (uid ty tx : List Char) :
    marshalPushRequest { To := utf8 uid, Messages := [{ MsgType := utf8 ty, Text := utf8 tx }] }
      = 0x7B :: quoted "to".data (0x3A :: quoted uid (0x2C :: quoted "messages".data
          (0x3A :: 0x5B :: 0x7B :: quoted "type".data (0x3A :: quoted ty (0x2C ::
            quoted "text".data (0x3A :: quoted tx [0x7D, 0x5D, 0x7D])))))) := by
  simp only [marshalPushRequest, marshalMessages, marshalTextMessage, appendString_utf8, quoted]
  have e1 : goString "\x7b\"to\":" = 0x7B :: 0x22 :: ("to".data.flatMap jsonChar ++ [0x22, 0x3A]) := rfl
  have e2 : goString ",\"messages\":["
      = 0x2C :: 0x22 :: ("messages".data.flatMap jsonChar ++ [0x22, 0x3A, 0x5B]) := rfl
  have e3 : goString "\x7b\"type\":"
      = 0x7B :: 0x22 :: ("type".data.flatMap jsonChar ++ [0x22, 0x3A]) := rfl
  have e4 : goString ",\"text\":"
      = 0x2C :: 0x22 :: ("text".data.flatMap jsonChar ++ [0x22, 0x3A]) := rfl
  have e5 : goString "\x7d" = [0x7D] := rfl
  have e6 : goString "]\x7d" = [0x5D, 0x7D] := rfl
  rw [e1, e2, e3, e4, e5, e6]
  simp only [List.cons_append, List.append_assoc, List.nil_append]

theorem parse_marshalPushRequest (uid ty tx : List Char) (f : Nat) :
    parseValue (f + 9)
        (marshalPushRequest
          { To := utf8 uid, Messages := [{ MsgType := utf8 ty, Text := utf8 tx }] })
      = some (Json.obj [(utf8 "to".data, Json.str (utf8 uid)),
          (utf8 "messages".data, Json.arr [Json.obj [(utf8 "type".data, Json.str (utf8 ty)),
            (utf8 "text".data, Json.str (utf8 tx))]])], []) := by
  rw [marshalPushRequest_eq]
  have h1 : parseMembers (f + 2)
      (quoted "text".data (0x3A :: quoted tx [0x7D, 0x5D, 0x7D]))
      = some ([(utf8 "text".data, Json.str (utf8 tx))], [0x5D, 0x7D]) :=
    parseMembers_last (f + 1) _ _ _ _ (parseValue_quoted f tx _)
  have h2 : parseMembers (f + 3) (quoted "type".data (0x3A :: quoted ty (0x2C ::
      quoted "text".data (0x3A :: quoted tx [0x7D, 0x5D, 0x7D]))))
      = some ([(utf8 "type".data, Json.str (utf8 ty)),
          (utf8 "text".data, Json.str (utf8 tx))], [0x5D, 0x7D]) := by
    rw [parseMembers_comma (f + 2) _ _ _ _ (parseValue_quoted (f + 1) ty _), h1]
    rfl
  have h3 := parseValue_object (f + 3) _ _ _ _ h2
  have h4 := parseValue_array_one (f + 4) _ _ _ h3
  have h5 := parseMembers_last (f + 6) "messages".data _ _ _ h4
  have h6 : parseMembers (f + 8) (quoted "to".data (0x3A :: quoted uid (0x2C ::
      quoted "messages".data
      (0x3A :: 0x5B :: 0x7B :: quoted "type".data (0x3A :: quoted ty (0x2C ::
        quoted "text".data (0x3A :: quoted tx [0x7D, 0x5D, 0x7D])))))))
      = some ([(utf8 "to".data, Json.str (utf8 uid)),
          (utf8 "messages".data, Json.arr [Json.obj [(utf8 "type".data, Json.str (utf8 ty)),
            (utf8 "text".data, Json.str (utf8 tx))]])], []) := by
    rw [parseMembers_comma (f + 7) _ _ _ _ (parseValue_quoted (f + 6) uid _), h5]
    rfl
  exact parseValue_object (f + 8) _ _ _ _ h6

theorem marshalPushRequest_length (p : PushRequest) : 8 ≤ (marshalPushRequest p).length := by
  have e1 : goString "\x7b\"to\":" = [0x7B, 0x22, 0x74, 0x6F, 0x22, 0x3A] := rfl
  have e6 : goString "]\x7d" = [0x5D, 0x7D] := rfl
  simp only [marshalPushRequest, e1, e6, List.length_append, List.length_cons, List.length_nil]
  omega

theorem unmarshal_marshal_utf8 (uid ty tx : List Char) :
    unmarshalPushRequest (marshalPushRequest
        { To := utf8 uid, Messages := [{ MsgType := utf8 ty, Text := utf8 tx }] })
      = .ok { To := utf8 uid, Messages := [{ MsgType := utf8 ty, Text := utf8 tx }] } := by
  unfold unmarshalPushRequest
  have hl := marshalPushRequest_length
    { To := utf8 uid, Messages := [{ MsgType := utf8 ty, Text := utf8 tx }] }
  obtain ⟨f, hf⟩ : ∃ f, (marshalPushRequest
      { To := utf8 uid, Messages := [{ MsgType := utf8 ty, Text := utf8 tx }] }).length + 1
        = f + 9 := ⟨_, (Nat.sub_add_cancel (by omega)).symm⟩
  rw [hf, parse_marshalPushRequest]
  rfl

/-- C7, as stated, fails: for the recipient id consisting of the single byte 0xFF, which is not
valid UTF-8, the body that is encoded decodes to a request whose `To` is the three bytes of
U+FFFD, not the recipient id supplied. -/
theorem push_roundtrip_invalid_utf8 :
    (pushHttpRequest (goString "line-token") [0xFF] (goString "hi")).body
      = some (marshalPushRequest (pushPayload [0xFF] (goString "hi")))
    ∧ unmarshalPushRequest (marshalPushRequest (pushPayload [0xFF] (goString "hi")))
      = .ok (pushPayload [0xEF, 0xBF, 0xBD] (goString "hi"))
    ∧ (pushPayload [0xEF, 0xBF, 0xBD] (goString "hi")).To ≠ [0xFF] :=
  ⟨rfl, rfl, by decide⟩

/-- C7, amended: for every recipient id and every message text that are valid UTF-8, that is,
the encodings of sequences of Unicode characters, the body `sendLineMessage` puts in its request
is the encoding of the push request, and it decodes back to a request whose `To` is the
recipient id and whose `Messages` holds exactly one element, of type "text" and with the
message text. -/
theorem push_roundtrip_valid_utf8 (token : GoString) (userId message : String) :
    (pushHttpRequest token (goString userId) (goString message)).body
      = some (marshalPushRequest (pushPayload (goString userId) (goString message)))
    ∧ ∃ p, unmarshalPushRequest
          (marshalPushRequest (pushPayload (goString userId) (goString message))) = .ok p
        ∧ p.To = goString userId
        ∧ p.Messages = [{ MsgType := goString "text", Text := goString message }] :=
  ⟨rfl, _, unmarshal_marshal_utf8 userId.data "text".data message.data, rfl, rfl⟩

/-! ## The run of main -/

@[simp] theorem Run.call_exit (c : Call) (r : Run) : (Run.call c r).exit = r.exit := rfl

@[simp] theorem Run.call_calls (c : Call) (r : Run) : (Run.call c r).calls = c :: r.calls := rfl

@[simp] theorem Run.call_sends (c : Call) (r : Run) :
    (Run.call c r).sends = if c.isSend then c :: r.sends else r.sends := by
  simp [Run.sends, Run.call, List.filter_cons]

theorem formatDate_of_tzdata (w : World) (h : w.tzdata = true) (t : Time) :
    formatDate w t = some ((t.In (9 * 3600)).Format "2006-01-02") := by
  simp [formatDate, LoadLocation, h]

theorem selectLast_nil {α : Type} : selectLast ([] : List α) = .noData := by
  simp [selectLast]

theorem index_last {α : Type} (data : List α) (h : data ≠ []) :
    index data ((data.length : Int) - 1) = some (data.getLast h) := by
  have hpos : 0 < data.length := List.length_pos.mpr h
  have h1 : (0 : Int) ≤ (data.length : Int) - 1 ∧ (data.length : Int) - 1 < data.length := by omega
  have h2 : ((data.length : Int) - 1).toNat = data.length - 1 := by omega
  simp only [index, h1, and_self, if_true, h2]
  rw [List.getLast_eq_getElem]
  exact List.getElem?_eq_getElem _

theorem selectLast_of_ne_nil {α : Type} (data : List α) (h : data ≠ []) :
    selectLast data = .record (data.getLast h) := by
  have hpos : 0 < data.length := List.length_pos.mpr h
  have h0 : ¬ ((data.length : Int) = 0) := by omega
  simp [selectLast, h0, index_last data h]



theorem goString_report_ne (a : Activity) (s : Sleep) (ss : SleepScore) :
    goString (reportMessage a s ss) ≠ goString NoDataMessage := by
  intro h
  have h2 := congrArg (fun l => l.take 2) h
  revert h2
  have e1 : ∃ rest, reportMessage a s ss = String.mk ('■' :: rest) := ⟨_, rfl⟩
  obtain ⟨rest, e⟩ := e1
  rw [e]
  simp [goString, NoDataMessage, encodeRune]

/-- The run once the three bodies are fetched. -/
theorem main_of_fetched (cfg : Config) (w : World) (acRes sleepRes sleepScoreRes : GoString)
    (hf : Fetched cfg w acRes sleepRes sleepScoreRes) :
    main cfg w =
      { calls := fetchCalls cfg w ++ (mainAfterFetch cfg w acRes sleepRes sleepScoreRes).calls,
        exit := (mainAfterFetch cfg w acRes sleepRes sleepScoreRes).exit } := by
  obtain ⟨h1, h2, h3, htz, ha, hs, hss⟩ := hf
  simp only [yesterdayDateFormed, todayDateFormed] at ha hs hss
  simp only [main, h1, h2, h3, if_false, formatDate_of_tzdata w htz, ha, hs, hss, fetchCalls,
    yesterdayDateFormed, todayDateFormed]
  rfl

theorem main_of_fetched_sends (cfg : Config) (w : World) (acRes sleepRes sleepScoreRes : GoString)
    (hf : Fetched cfg w acRes sleepRes sleepScoreRes) :
    (main cfg w).sends = (mainAfterFetch cfg w acRes sleepRes sleepScoreRes).sends := by
  rw [main_of_fetched cfg w _ _ _ hf]
  simp [Run.sends, fetchCalls, Call.isSend]

theorem main_of_fetched_exit (cfg : Config) (w : World) (acRes sleepRes sleepScoreRes : GoString)
    (hf : Fetched cfg w acRes sleepRes sleepScoreRes) :
    (main cfg w).exit = (mainAfterFetch cfg w acRes sleepRes sleepScoreRes).exit := by
  rw [main_of_fetched cfg w _ _ _ hf]

theorem after_activity_error (cfg : Config) (w : World) (a s ss : GoString) (e : String)
    (h1 : w.unmarshalActivity a = .error e) :
    mainAfterFetch cfg w a s ss = ⟨[.unmarshal .activity a], decodeFatal⟩ := by
  simp only [mainAfterFetch, h1]
  rfl

theorem after_activity_empty (cfg : Config) (w : World) (a s ss : GoString)
    (ra : DailyActivityResponse)
    (h1 : w.unmarshalActivity a = .ok ra) (e1 : ra.Data = []) :
    mainAfterFetch cfg w a s ss
      = ⟨[.unmarshal .activity a, sendCall cfg NoDataMessage],
          exitAfterSend (sendResult cfg w NoDataMessage)⟩ := by
  simp only [mainAfterFetch, h1, e1, selectLast_nil, sendResult, exitAfterSend]
  cases sendLineMessage w cfg.LINE_API_TOKEN cfg.TO_LINE_USER (goString NoDataMessage) <;> rfl

theorem after_sleep_error (cfg : Config) (w : World) (a s ss : GoString)
    (ra : DailyActivityResponse) (e : String)
    (h1 : w.unmarshalActivity a = .ok ra) (e1 : ra.Data ≠ [])
    (h2 : w.unmarshalSleep s = .error e) :
    mainAfterFetch cfg w a s ss
      = ⟨[.unmarshal .activity a, .unmarshal .sleep s], decodeFatal⟩ := by
  simp only [mainAfterFetch, h1, selectLast_of_ne_nil _ e1, h2]
  rfl

theorem after_sleep_empty (cfg : Config) (w : World) (a s ss : GoString)
    (ra : DailyActivityResponse) (rs : SleepResponse)
    (h1 : w.unmarshalActivity a = .ok ra) (e1 : ra.Data ≠ [])
    (h2 : w.unmarshalSleep s = .ok rs) (e2 : rs.Data = []) :
    mainAfterFetch cfg w a s ss
      = ⟨[.unmarshal .activity a, .unmarshal .sleep s, sendCall cfg NoDataMessage],
          exitAfterSend (sendResult cfg w NoDataMessage)⟩ := by
  simp only [mainAfterFetch, h1, selectLast_of_ne_nil _ e1, h2, e2, selectLast_nil, sendResult,
    exitAfterSend]
  cases sendLineMessage w cfg.LINE_API_TOKEN cfg.TO_LINE_USER (goString NoDataMessage) <;> rfl

theorem after_score_error (cfg : Config) (w : World) (a s ss : GoString)
    (ra : DailyActivityResponse) (rs : SleepResponse) (e : String)
    (h1 : w.unmarshalActivity a = .ok ra) (e1 : ra.Data ≠ [])
    (h2 : w.unmarshalSleep s = .ok rs) (e2 : rs.Data ≠ [])
    (h3 : w.unmarshalSleepScore ss = .error e) :
    mainAfterFetch cfg w a s ss
      = ⟨[.unmarshal .activity a, .unmarshal .sleep s, .unmarshal .sleepScore ss],
          decodeFatal⟩ := by
  simp only [mainAfterFetch, h1, selectLast_of_ne_nil _ e1, h2, selectLast_of_ne_nil _ e2, h3]
  rfl

theorem after_score_empty (cfg : Config) (w : World) (a s ss : GoString)
    (ra : DailyActivityResponse) (rs : SleepResponse) (rss : SleepScoreResponse)
    (h1 : w.unmarshalActivity a = .ok ra) (e1 : ra.Data ≠ [])
    (h2 : w.unmarshalSleep s = .ok rs) (e2 : rs.Data ≠ [])
    (h3 : w.unmarshalSleepScore ss = .ok rss) (e3 : rss.Data = []) :
    mainAfterFetch cfg w a s ss
      = ⟨[.unmarshal .activity a, .unmarshal .sleep s, .unmarshal .sleepScore ss,
            sendCall cfg NoDataMessage],
          exitAfterSend (sendResult cfg w NoDataMessage)⟩ := by
  simp only [mainAfterFetch, h1, selectLast_of_ne_nil _ e1, h2, selectLast_of_ne_nil _ e2, h3, e3,
    selectLast_nil, sendResult, exitAfterSend]
  cases sendLineMessage w cfg.LINE_API_TOKEN cfg.TO_LINE_USER (goString NoDataMessage) <;> rfl

theorem after_all_present (cfg : Config) (w : World) (a s ss : GoString)
    (ra : DailyActivityResponse) (rs : SleepResponse) (rss : SleepScoreResponse)
    (h1 : w.unmarshalActivity a = .ok ra) (e1 : ra.Data ≠ [])
    (h2 : w.unmarshalSleep s = .ok rs) (e2 : rs.Data ≠ [])
    (h3 : w.unmarshalSleepScore ss = .ok rss) (e3 : rss.Data ≠ []) :
    mainAfterFetch cfg w a s ss
      = ⟨[.unmarshal .activity a, .unmarshal .sleep s, .unmarshal .sleepScore ss,
            .sprintfReport,
            sendCall cfg (reportMessage (ra.Data.getLast e1) (rs.Data.getLast e2)
              (rss.Data.getLast e3))],
          exitAfterSend (sendResult cfg w (reportMessage (ra.Data.getLast e1)
            (rs.Data.getLast e2) (rss.Data.getLast e3)))⟩ := by
  simp only [mainAfterFetch, h1, selectLast_of_ne_nil _ e1, h2, selectLast_of_ne_nil _ e2, h3,
    selectLast_of_ne_nil _ e3, sendResult, exitAfterSend]
  cases sendLineMessage w cfg.LINE_API_TOKEN cfg.TO_LINE_USER
    (goString (reportMessage (ra.Data.getLast e1) (rs.Data.getLast e2) (rss.Data.getLast e3)))
    <;> rfl

theorem selectLast_ne_outOfRange {α : Type} (data : List α) : selectLast data ≠ .outOfRange := by
  by_cases h : data = []
  · subst h; simp [selectLast_nil]
  · simp [selectLast_of_ne_nil data h]

/-- Either a run stops before the bodies are decoded, fatally and without a send, or its three
fetches succeed. -/
theorem main_cases (cfg : Config) (w : World) :
    ((main cfg w).exit.isFatal = true ∧ (main cfg w).sends = []
        ∧ ∀ c ∈ (main cfg w).calls, ∃ e t s d, c = Call.fetchOuraData e t s d)
    ∨ ∃ acRes sleepRes sleepScoreRes, Fetched cfg w acRes sleepRes sleepScoreRes := by
  by_cases h1 : cfg.OURA_API_TOKEN = []
  · left; simp [main, h1, Exit.isFatal, Run.sends]
  by_cases h2 : cfg.LINE_API_TOKEN = []
  · left; simp [main, h1, h2, Exit.isFatal, Run.sends]
  by_cases h3 : cfg.TO_LINE_USER = []
  · left; simp [main, h1, h2, h3, Exit.isFatal, Run.sends]
  by_cases htz : w.tzdata = true
  swap
  · left; simp [main, h1, h2, h3, formatDate, LoadLocation, htz, Exit.isFatal, Run.sends]
  cases ha : fetchOuraData w ouraApiDailyActivityUrl cfg.OURA_API_TOKEN
      (yesterdayDateFormed w) (todayDateFormed w) with
  | error e =>
    left
    simp only [yesterdayDateFormed, todayDateFormed] at ha
    simp only [main, h1, h2, h3, if_false, formatDate_of_tzdata w htz, ha]
    simp [Exit.isFatal, Call.isSend, Run.sends]
  | ok acRes =>
    cases hs : fetchOuraData w ouraApiSleepUrl cfg.OURA_API_TOKEN
        (yesterdayDateFormed w) (todayDateFormed w) with
    | error e =>
      left
      simp only [yesterdayDateFormed, todayDateFormed] at ha hs
      simp only [main, h1, h2, h3, if_false, formatDate_of_tzdata w htz, ha, hs]
      simp [Exit.isFatal, Call.isSend, Run.sends]
    | ok sleepRes =>
      cases hss : fetchOuraData w ouraApiSleepScoreUrl cfg.OURA_API_TOKEN
          (todayDateFormed w) (todayDateFormed w) with
      | error e =>
        left
        simp only [yesterdayDateFormed, todayDateFormed] at ha hs hss
        simp only [main, h1, h2, h3, if_false, formatDate_of_tzdata w htz, ha, hs, hss]
        simp [Exit.isFatal, Call.isSend, Run.sends]
      | ok sleepScoreRes =>
        right
        exact ⟨acRes, sleepRes, sleepScoreRes, h1, h2, h3, htz, ha, hs, hss⟩

/-- The seven ways the decoding stage can go. -/
theorem mainAfterFetch_cases (cfg : Config) (w : World) (a s ss : GoString) :
    mainAfterFetch cfg w a s ss = ⟨[.unmarshal .activity a], decodeFatal⟩
    ∨ mainAfterFetch cfg w a s ss = ⟨[.unmarshal .activity a, .unmarshal .sleep s], decodeFatal⟩
    ∨ mainAfterFetch cfg w a s ss
        = ⟨[.unmarshal .activity a, .unmarshal .sleep s, .unmarshal .sleepScore ss], decodeFatal⟩
    ∨ mainAfterFetch cfg w a s ss
        = ⟨[.unmarshal .activity a, sendCall cfg NoDataMessage],
            exitAfterSend (sendResult cfg w NoDataMessage)⟩
    ∨ mainAfterFetch cfg w a s ss
        = ⟨[.unmarshal .activity a, .unmarshal .sleep s, sendCall cfg NoDataMessage],
            exitAfterSend (sendResult cfg w NoDataMessage)⟩
    ∨ mainAfterFetch cfg w a s ss
        = ⟨[.unmarshal .activity a, .unmarshal .sleep s, .unmarshal .sleepScore ss,
              sendCall cfg NoDataMessage],
            exitAfterSend (sendResult cfg w NoDataMessage)⟩
    ∨ ∃ x y z, mainAfterFetch cfg w a s ss
        = ⟨[.unmarshal .activity a, .unmarshal .sleep s, .unmarshal .sleepScore ss,
              .sprintfReport, sendCall cfg (reportMessage x y z)],
            exitAfterSend (sendResult cfg w (reportMessage x y z))⟩ := by
  cases h1 : w.unmarshalActivity a with
  | error e => exact Or.inl (after_activity_error cfg w a s ss e h1)
  | ok ra =>
    by_cases e1 : ra.Data = []
    · exact Or.inr (Or.inr (Or.inr (Or.inl (after_activity_empty cfg w a s ss ra h1 e1))))
    cases h2 : w.unmarshalSleep s with
    | error e => exact Or.inr (Or.inl (after_sleep_error cfg w a s ss ra e h1 e1 h2))
    | ok rs =>
      by_cases e2 : rs.Data = []
      · exact Or.inr (Or.inr (Or.inr (Or.inr (Or.inl
          (after_sleep_empty cfg w a s ss ra rs h1 e1 h2 e2)))))
      cases h3 : w.unmarshalSleepScore ss with
      | error e =>
        exact Or.inr (Or.inr (Or.inl (after_score_error cfg w a s ss ra rs e h1 e1 h2 e2 h3)))
      | ok rss =>
        by_cases e3 : rss.Data = []
        · exact Or.inr (Or.inr (Or.inr (Or.inr (Or.inr (Or.inl
            (after_score_empty cfg w a s ss ra rs rss h1 e1 h2 e2 h3 e3))))))
        · exact Or.inr (Or.inr (Or.inr (Or.inr (Or.inr (Or.inr
            ⟨_, _, _, after_all_present cfg w a s ss ra rs rss h1 e1 h2 e2 h3 e3⟩)))))

theorem exitAfterSend_ok : exitAfterSend (.ok ()) = .success := rfl

theorem exitAfterSend_success (r : Except String Unit) (h : exitAfterSend r = .success) :
    r = .ok () := by
  cases r with
  | error e => simp [exitAfterSend] at h
  | ok u => rfl

theorem exitAfterSend_ne_panic (r : Except String Unit) : exitAfterSend r ≠ .panic := by
  cases r <;> simp [exitAfterSend]

theorem exitAfterSend_error (r : Except String Unit) (h : r ≠ .ok ()) :
    exitAfterSend r = .fatal "LINEメッセージの送信に失敗しました:" := by
  cases r with
  | error e => rfl
  | ok u => exact absurd rfl h

theorem sends_one (cs : List Call) (c : Call) (e : Exit) (h1 : ∀ x ∈ cs, x.isSend = false)
    (h2 : c.isSend = true) : (Run.mk (cs ++ [c]) e).sends = [c] := by
  simp only [Run.sends, List.filter_append]
  rw [List.filter_eq_nil_iff.mpr (by simpa using h1)]
  simp [h2]

/-- What every run satisfies: the facts about sends shared by the properties below. -/
theorem main_sends (cfg : Config) (w : World) :
    ((main cfg w).sends = [] ∧ (main cfg w).exit.isFatal = true)
    ∨ ∃ message, (main cfg w).sends = [sendCall cfg message]
        ∧ (main cfg w).exit = exitAfterSend (sendResult cfg w message) := by
  rcases main_cases cfg w with ⟨h1, h2, _⟩ | ⟨a, s, ss, hf⟩
  · exact Or.inl ⟨h2, h1⟩
  · rw [main_of_fetched_sends cfg w a s ss hf, main_of_fetched_exit cfg w a s ss hf]
    rcases mainAfterFetch_cases cfg w a s ss with h | h | h | h | h | h | ⟨x, y, z, h⟩
    all_goals rw [h]
    · left; exact ⟨rfl, rfl⟩
    · left; exact ⟨rfl, rfl⟩
    · left; exact ⟨rfl, rfl⟩
    · right; exact ⟨_, rfl, rfl⟩
    · right; exact ⟨_, rfl, rfl⟩
    · right; exact ⟨_, rfl, rfl⟩
    · right; exact ⟨_, rfl, rfl⟩

/-! ## Decode failures (C1) -/

/-- C1, as stated, fails: with all three fetches successful, an activity list that decodes to
zero items and a sleep body that does not decode, the run sends `NoDataMessage` and ends
successfully. -/
theorem decode_failure_after_empty_category :
    Fetched exampleConfig worldEmptyActivityBadSleep emptyBody htmlBody emptyBody
    ∧ worldEmptyActivityBadSleep.unmarshalSleep htmlBody
        = .error "invalid character '<' looking for beginning of value"
    ∧ (main exampleConfig worldEmptyActivityBadSleep).sends
        = [sendCall exampleConfig NoDataMessage]
    ∧ (main exampleConfig worldEmptyActivityBadSleep).exit = .success :=
  ⟨⟨by decide, by decide, by decide, rfl, rfl, rfl, rfl⟩, rfl, rfl, rfl⟩

/-- C1, amended: when the three fetches succeed, the bodies are decoded in the order activity,
sleep, sleep score, each only after the category before it gave a non-empty list. A decode
failure of a body that is reached ends the run fatally with no message sent. A body that comes
after the first empty category is never decoded, and `NoDataMessage` is sent. -/
theorem decode_failure_fatal_when_reached (cfg : Config) (w : World)
    (acRes sleepRes sleepScoreRes : GoString)
    (hf : Fetched cfg w acRes sleepRes sleepScoreRes) :
    (∀ e, w.unmarshalActivity acRes = .error e →
        (main cfg w).exit = decodeFatal ∧ (main cfg w).sends = [])
    ∧ (∀ ra e, w.unmarshalActivity acRes = .ok ra → ra.Data ≠ [] →
        w.unmarshalSleep sleepRes = .error e →
        (main cfg w).exit = decodeFatal ∧ (main cfg w).sends = [])
    ∧ (∀ ra rs e, w.unmarshalActivity acRes = .ok ra → ra.Data ≠ [] →
        w.unmarshalSleep sleepRes = .ok rs → rs.Data ≠ [] →
        w.unmarshalSleepScore sleepScoreRes = .error e →
        (main cfg w).exit = decodeFatal ∧ (main cfg w).sends = [])
    ∧ (∀ ra, w.unmarshalActivity acRes = .ok ra → ra.Data = [] →
        (main cfg w).sends = [sendCall cfg NoDataMessage]
        ∧ ∀ body, Call.unmarshal .sleep body ∉ (main cfg w).calls
            ∧ Call.unmarshal .sleepScore body ∉ (main cfg w).calls)
    ∧ (∀ ra rs, w.unmarshalActivity acRes = .ok ra → ra.Data ≠ [] →
        w.unmarshalSleep sleepRes = .ok rs → rs.Data = [] →
        (main cfg w).sends = [sendCall cfg NoDataMessage]
        ∧ ∀ body, Call.unmarshal .sleepScore body ∉ (main cfg w).calls) := by
  have hs := main_of_fetched_sends cfg w _ _ _ hf
  have he := main_of_fetched_exit cfg w _ _ _ hf
  have hc := main_of_fetched cfg w _ _ _ hf
  refine ⟨?_, ?_, ?_, ?_, ?_⟩
  · intro e h1
    rw [hs, he, after_activity_error cfg w _ _ _ e h1]
    exact ⟨rfl, rfl⟩
  · intro ra e h1 e1 h2
    rw [hs, he, after_sleep_error cfg w _ _ _ ra e h1 e1 h2]
    exact ⟨rfl, rfl⟩
  · intro ra rs e h1 e1 h2 e2 h3
    rw [hs, he, after_score_error cfg w _ _ _ ra rs e h1 e1 h2 e2 h3]
    exact ⟨rfl, rfl⟩
  · intro ra h1 e1
    rw [hs, hc, after_activity_empty cfg w _ _ _ ra h1 e1]
    refine ⟨rfl, fun body => ?_⟩
    simp [fetchCalls, sendCall]
  · intro ra rs h1 e1 h2 e2
    rw [hs, hc, after_sleep_empty cfg w _ _ _ ra rs h1 e1 h2 e2]
    refine ⟨rfl, fun body => ?_⟩
    simp [fetchCalls, sendCall]

theorem decode_failure_fatal_when_reached_witness :
    Fetched exampleConfig worldBadActivity htmlBody emptyBody emptyBody
    ∧ (main exampleConfig worldBadActivity).exit = decodeFatal
    ∧ (main exampleConfig worldBadActivity).sends = [] :=
  ⟨⟨by decide, by decide, by decide, rfl, rfl, rfl, rfl⟩,
    (decode_failure_fatal_when_reached exampleConfig worldBadActivity htmlBody emptyBody emptyBody
      ⟨by decide, by decide, by decide, rfl, rfl, rfl, rfl⟩).1 _ rfl⟩

/-! ## Empty data and the report (C2) -/

/-- C2: when the three bodies decode, an empty list in any category makes the run send
`NoDataMessage` as its only message, without building the report, and end successfully if the
send succeeds; when all three lists are non-empty the only message is the report built from
the last records, which differs from `NoDataMessage`. -/
theorem main_fallback_or_report (cfg : Config) (w : World)
    (acRes sleepRes sleepScoreRes : GoString)
    (activityRes : DailyActivityResponse) (sleepData : SleepResponse)
    (sleepScoreData : SleepScoreResponse)
    (hf : Fetched cfg w acRes sleepRes sleepScoreRes)
    (ha : w.unmarshalActivity acRes = .ok activityRes)
    (hs : w.unmarshalSleep sleepRes = .ok sleepData)
    (hss : w.unmarshalSleepScore sleepScoreRes = .ok sleepScoreData) :
    ((activityRes.Data = [] ∨ sleepData.Data = [] ∨ sleepScoreData.Data = []) →
      (main cfg w).sends = [sendCall cfg NoDataMessage]
        ∧ Call.sprintfReport ∉ (main cfg w).calls
        ∧ (sendResult cfg w NoDataMessage = .ok () → (main cfg w).exit = .success))
    ∧ ∀ (h1 : activityRes.Data ≠ []) (h2 : sleepData.Data ≠ []) (h3 : sleepScoreData.Data ≠ []),
        (main cfg w).sends
          = [sendCall cfg (reportMessage (activityRes.Data.getLast h1) (sleepData.Data.getLast h2)
              (sleepScoreData.Data.getLast h3))]
        ∧ Call.sprintfReport ∈ (main cfg w).calls
        ∧ goString (reportMessage (activityRes.Data.getLast h1) (sleepData.Data.getLast h2)
              (sleepScoreData.Data.getLast h3)) ≠ goString NoDataMessage := by
  have hsd := main_of_fetched_sends cfg w _ _ _ hf
  have hex := main_of_fetched_exit cfg w _ _ _ hf
  have hc := main_of_fetched cfg w _ _ _ hf
  constructor
  · intro hempty
    by_cases e1 : activityRes.Data = []
    · rw [hsd, hex, hc, after_activity_empty cfg w _ _ _ _ ha e1]
      refine ⟨rfl, by simp [fetchCalls, sendCall], fun hok => ?_⟩
      simp only [hok]
      rfl
    by_cases e2 : sleepData.Data = []
    · rw [hsd, hex, hc, after_sleep_empty cfg w _ _ _ _ _ ha e1 hs e2]
      refine ⟨rfl, by simp [fetchCalls, sendCall], fun hok => ?_⟩
      simp only [hok]
      rfl
    have e3 : sleepScoreData.Data = [] := by tauto
    rw [hsd, hex, hc, after_score_empty cfg w _ _ _ _ _ _ ha e1 hs e2 hss e3]
    refine ⟨rfl, by simp [fetchCalls, sendCall], fun hok => ?_⟩
    simp only [hok]
    rfl
  · intro h1 h2 h3
    rw [hsd, hc, after_all_present cfg w _ _ _ _ _ _ ha h1 hs h2 hss h3]
    exact ⟨rfl, by simp, goString_report_ne _ _ _⟩

theorem main_fallback_or_report_witness :
    Fetched exampleConfig worldAllPresent emptyBody emptyBody emptyBody
    ∧ (main exampleConfig worldAllPresent).sends
        = [sendCall exampleConfig (reportMessage sampleActivity sampleSleep sampleSleepScore)] :=
  ⟨⟨by decide, by decide, by decide, rfl, rfl, rfl, rfl⟩,
    ((main_fallback_or_report exampleConfig worldAllPresent emptyBody emptyBody emptyBody
      ⟨[sampleActivity], none⟩ ⟨[sampleSleep], none⟩ ⟨[sampleSleepScore], none⟩
      ⟨by decide, by decide, by decide, rfl, rfl, rfl, rfl⟩ rfl rfl rfl).2
      (by decide) (by decide) (by decide)).1⟩

/-! ## Selection of the record (C3) -/

/-- C3: on an empty list nothing is selected and nothing is indexed; on a non-empty list the
index `len - 1` is in range and the record selected is the last one, `c` on `[a, b, c]`;
no run of main ends in an index-out-of-range panic. -/
theorem selectLast_spec {α : Type} (data : List α) (a b c : α) :
    selectLast ([] : List α) = .noData
    ∧ index ([] : List α) ((([] : List α).length : Int) - 1) = none
    ∧ (∀ h : data ≠ [], index data ((data.length : Int) - 1) = some (data.getLast h)
        ∧ selectLast data = .record (data.getLast h))
    ∧ selectLast [a, b, c] = .record c
    ∧ selectLast data ≠ .outOfRange
    ∧ ∀ (cfg : Config) (w : World), (main cfg w).exit ≠ .panic := by
  refine ⟨selectLast_nil, rfl, fun h => ⟨index_last data h, selectLast_of_ne_nil data h⟩, ?_,
    selectLast_ne_outOfRange data, ?_⟩
  · rw [selectLast_of_ne_nil _ (by simp)]
    rfl
  · intro cfg w
    rcases main_sends cfg w with ⟨_, h⟩ | ⟨m, _, h⟩
    · intro hp
      rw [hp] at h
      simp [Exit.isFatal] at h
    · rw [h]
      exact exitAfterSend_ne_panic _

theorem selectLast_spec_witness :
    selectLast [sampleActivity, { sampleActivity with ActiveScore := 70 }]
      = .record { sampleActivity with ActiveScore := 70 } :=
  ((selectLast_spec [sampleActivity, { sampleActivity with ActiveScore := 70 }]
    sampleActivity sampleActivity sampleActivity).2.2.1 (by decide)).2

/-! ## Errors of the send (C8) -/

/-- C8: `sendLineMessage` returns nil exactly when the request is built, the client returns a
response and its status is 200, and an error in every other case; a run of main whose send
returns an error ends fatally and has made that one send only. -/
theorem sendLineMessage_error_iff (cfg : Config) (w : World) (token userId message : GoString) :
    (sendLineMessage w token userId message = .ok ()
      ↔ w.newRequest "POST" "https://api.line.me/v2/bot/message/push" = true
        ∧ ∃ resp, w.doRequest (pushHttpRequest token userId message) = .ok resp
            ∧ resp.StatusCode = 200)
    ∧ ((∃ err, sendLineMessage w token userId message = .error err)
      ↔ w.newRequest "POST" "https://api.line.me/v2/bot/message/push" = false
        ∨ (∃ err, w.doRequest (pushHttpRequest token userId message) = .error err)
        ∨ ∃ resp, w.doRequest (pushHttpRequest token userId message) = .ok resp
            ∧ resp.StatusCode ≠ 200)
    ∧ ∀ text : String, sendCall cfg text ∈ (main cfg w).calls →
        (∃ err, sendResult cfg w text = .error err) →
        (main cfg w).exit.isFatal = true ∧ (main cfg w).exit ≠ .success
        ∧ (main cfg w).sends = [sendCall cfg text] := by
  refine ⟨?_, ?_, ?_⟩
  · unfold sendLineMessage pushHttpRequest
    by_cases hn : w.newRequest "POST" "https://api.line.me/v2/bot/message/push" = true
    · simp only [hn, not_true_eq_false, if_false, true_and]
      split
      · simp_all
      · rename_i resp hresp
        by_cases hst : resp.StatusCode = 200
        · simp_all
        · simp_all
    · simp [hn]
  · unfold sendLineMessage pushHttpRequest
    by_cases hn : w.newRequest "POST" "https://api.line.me/v2/bot/message/push" = true
    · simp only [hn, not_true_eq_false, if_false]
      split
      · simp_all
      · rename_i resp hresp
        by_cases hst : resp.StatusCode = 200
        · simp_all
        · simp_all
    · simp [hn]
  · intro text hmem ⟨err, herr⟩
    rcases main_sends cfg w with ⟨h1, h2⟩ | ⟨m, h1, h2⟩
    · exfalso
      have : sendCall cfg text ∈ (main cfg w).sends := List.mem_filter.mpr ⟨hmem, rfl⟩
      rw [h1] at this
      simp at this
    · have hm : sendCall cfg text ∈ (main cfg w).sends := List.mem_filter.mpr ⟨hmem, rfl⟩
      rw [h1] at hm
      have hm2 : sendCall cfg text = sendCall cfg m := by simpa using hm
      have hg : goString text = goString m := by
        simpa [sendCall] using hm2
      have hr : sendResult cfg w m = .error err := by
        rw [← herr]; simp [sendResult, hg]
      rw [h2, h1, hr, hm2]
      exact ⟨rfl, by simp [exitAfterSend], rfl⟩

theorem sendLineMessage_error_iff_witness :
    sendCall exampleConfig NoDataMessage ∈ (main exampleConfig worldSendRefused).calls
    ∧ sendResult exampleConfig worldSendRefused NoDataMessage = .error "status 500 from LINE API"
    ∧ (main exampleConfig worldSendRefused).exit.isFatal = true
    ∧ (main exampleConfig worldSendRefused).sends = [sendCall exampleConfig NoDataMessage] :=
  have h := (sendLineMessage_error_iff exampleConfig worldSendRefused [] [] []).2.2
    NoDataMessage (by decide) ⟨_, rfl⟩
  ⟨by decide, rfl, h.1, h.2.2⟩

/-! ## One message per run (C9) -/

/-- C9: every run makes at most one call of `sendLineMessage`; a run that ends successfully
makes exactly one; every send goes to the configured recipient with the configured token;
so neither the fallback nor the report is sent twice, nor one after the other. -/
theorem main_at_most_one_send (cfg : Config) (w : World) :
    (main cfg w).sends.length ≤ 1
    ∧ ((main cfg w).exit = .success → (main cfg w).sends.length = 1)
    ∧ (∀ c ∈ (main cfg w).sends,
        ∃ message, c = .sendLineMessage cfg.LINE_API_TOKEN cfg.TO_LINE_USER message)
    ∧ ((main cfg w).sends.filter (· = sendCall cfg NoDataMessage)).length ≤ 1
    ∧ (sendCall cfg NoDataMessage ∈ (main cfg w).sends →
        ∀ x y z, sendCall cfg (reportMessage x y z) ∉ (main cfg w).sends) := by
  rcases main_sends cfg w with ⟨h1, h2⟩ | ⟨m, h1, h2⟩
  · rw [h1]
    refine ⟨by simp, ?_, by simp, by simp, by simp⟩
    intro hs
    rw [hs] at h2
    simp [Exit.isFatal] at h2
  · rw [h1]
    refine ⟨by simp, by simp, ?_, ?_, ?_⟩
    · intro c hc
      exact ⟨goString m, by simpa [sendCall] using hc⟩
    · exact le_trans (List.length_filter_le _ _) (by simp)
    · intro hn x y z hr
      have e1 : goString NoDataMessage = goString m := by simpa [sendCall] using hn
      have e2 : goString (reportMessage x y z) = goString m := by simpa [sendCall] using hr
      exact goString_report_ne x y z (e2.trans e1.symm)

/-! ## The report (C5) -/

theorem fmtInteger_none (i : Int) : String.mk (fmtInteger none i) = toString i := by
  cases i with
  | ofNat m =>
    have : ¬ ((Int.ofNat m) < 0) := by simp
    simp only [fmtInteger, this, decide_False, Bool.false_eq_true, if_false, Nat.zero_sub,
      List.replicate_zero, List.nil_append, Int.natAbs_ofNat]
    exact (repr_eq_decimal m).symm
  | negSucc m =>
    have h : (Int.negSucc m) < 0 := Int.negSucc_lt_zero m
    simp only [fmtInteger, h, decide_True, if_true, Nat.zero_sub, List.replicate_zero,
      List.nil_append]
    show _ = "-" ++ Nat.repr (m + 1)
    rw [repr_eq_decimal]
    rfl

theorem toString_data (i : Int) : (toString i).data = fmtInteger none i := by
  rw [← fmtInteger_none]

theorem format_dateTime_data (t : Time) :
    (t.Format "2006-01-02 15:04:05").data
      = appendInt t.Year 4 ++ '-' :: (appendInt t.Month 2 ++ '-' :: (appendInt t.Day 2 ++ ' ' ::
          (appendInt t.Hour 2 ++ ':' :: (appendInt t.Minute 2 ++ ':' ::
            (appendInt t.Second 2 ++ []))))) := rfl

theorem dateTimeText_eq (t : Time) : dateTimeText t = t.Format "2006-01-02 15:04:05" := by
  apply String.ext
  rw [format_dateTime_data]
  simp [dateTimeText]

theorem reportMessage_eq_append (activity : Activity) (sleep : Sleep) (sleepScore : SleepScore) :
    ∃ l, l = ([] : List Char) ∧ (reportMessage activity sleep sleepScore).data =
        ("■低バッテリーアラート:\n\t" ++
        getBatteryStatusMessage sleep.LowBatteryAlert ++
        "\n\n■睡眠データ:\n  ・合計睡眠時間:\n\u3000\u3000\u3000\u3000\u3000" ++
        formatSecondsToTime sleep.TotalSleepDuration ++
        "\n  ・睡眠効率:\t\t" ++
        toString sleep.Efficiency ++
        "%\n  ・就寝時間:\n\t\t\u3000\u3000\u3000\u3000" ++
        dateTimeText sleep.BedtimeStart ++
        "\n  ・起床時間:\n\t\t\u3000\u3000\u3000\u3000" ++
        dateTimeText sleep.BedtimeEnd ++
        "\n  ・深い睡眠時間:\n\t\t\u3000\u3000\u3000\u3000\u3000" ++
        formatSecondsToTime sleep.DeepSleepDuration ++
        "\n  ・浅い睡眠時間:\n\t\t\u3000\u3000\u3000\u3000\u3000" ++
        formatSecondsToTime sleep.LightSleepDuration ++
        "\n  ・REM睡眠時間:\n\t\t\u3000\u3000\u3000\u3000\u3000" ++
        formatSecondsToTime sleep.RemSleepDuration ++
        "\n\t\n■睡眠スコアデータ:\n  ・睡眠スコア:\t\t" ++
        toString sleepScore.Score ++
        "/100\n  ・安眠度のスコア:\t\t" ++
        toString sleepScore.Contributors.Restfulness ++
        "/100\n  ・睡眠時間のスコア:\t\t" ++
        toString sleepScore.Contributors.TotalSleep ++
        "/100\n  ・深い睡眠のスコア:\t\t" ++
        toString sleepScore.Contributors.DeepSleep ++
        "/100\n  ・REM睡眠のスコア:\t\t" ++
        toString sleepScore.Contributors.RemSleep ++
        "/100\n\t\n■活動量データ:\n  ・アクティブスコア:\t\t" ++
        toString activity.ActiveScore ++
        "/100\n  ・総消費カロリー:\t\t" ++
        toString activity.Calories ++
        " kcal\n  ・着用していない時間:\n\t\t\u3000\u3000\u3000\u3000\u3000" ++
        formatSecondsToTime activity.NonWearTime).data ++ l := by
  refine ⟨_, rfl, ?_⟩
  simp only [String.data_append, List.append_assoc, toString_data, dateTimeText_eq]
  rfl

theorem reportMessage_general (activity : Activity) (sleep : Sleep) (sleepScore : SleepScore) :
    reportMessage activity sleep sleepScore =
        "■低バッテリーアラート:\n\t" ++
        getBatteryStatusMessage sleep.LowBatteryAlert ++
        "\n\n■睡眠データ:\n  ・合計睡眠時間:\n\u3000\u3000\u3000\u3000\u3000" ++
        formatSecondsToTime sleep.TotalSleepDuration ++
        "\n  ・睡眠効率:\t\t" ++
        toString sleep.Efficiency ++
        "%\n  ・就寝時間:\n\t\t\u3000\u3000\u3000\u3000" ++
        dateTimeText sleep.BedtimeStart ++
        "\n  ・起床時間:\n\t\t\u3000\u3000\u3000\u3000" ++
        dateTimeText sleep.BedtimeEnd ++
        "\n  ・深い睡眠時間:\n\t\t\u3000\u3000\u3000\u3000\u3000" ++
        formatSecondsToTime sleep.DeepSleepDuration ++
        "\n  ・浅い睡眠時間:\n\t\t\u3000\u3000\u3000\u3000\u3000" ++
        formatSecondsToTime sleep.LightSleepDuration ++
        "\n  ・REM睡眠時間:\n\t\t\u3000\u3000\u3000\u3000\u3000" ++
        formatSecondsToTime sleep.RemSleepDuration ++
        "\n\t\n■睡眠スコアデータ:\n  ・睡眠スコア:\t\t" ++
        toString sleepScore.Score ++
        "/100\n  ・安眠度のスコア:\t\t" ++
        toString sleepScore.Contributors.Restfulness ++
        "/100\n  ・睡眠時間のスコア:\t\t" ++
        toString sleepScore.Contributors.TotalSleep ++
        "/100\n  ・深い睡眠のスコア:\t\t" ++
        toString sleepScore.Contributors.DeepSleep ++
        "/100\n  ・REM睡眠のスコア:\t\t" ++
        toString sleepScore.Contributors.RemSleep ++
        "/100\n\t\n■活動量データ:\n  ・アクティブスコア:\t\t" ++
        toString activity.ActiveScore ++
        "/100\n  ・総消費カロリー:\t\t" ++
        toString activity.Calories ++
        " kcal\n  ・着用していない時間:\n\t\t\u3000\u3000\u3000\u3000\u3000" ++
        formatSecondsToTime activity.NonWearTime := by
  apply String.ext
  obtain ⟨l, hl, h⟩ := reportMessage_eq_append activity sleep sleepScore
  rw [h, hl, List.append_nil]

theorem reportMessage_sample (bedtimeStart bedtimeEnd : Time) (deep light rem : Int) :
    reportMessage { ActiveScore := 80, Calories := 2000, NonWearTime := 600 }
        { BedtimeStart := bedtimeStart, BedtimeEnd := bedtimeEnd, DeepSleepDuration := deep,
          LightSleepDuration := light, RemSleepDuration := rem, TotalSleepDuration := 28800,
          Efficiency := 90, LowBatteryAlert := false }
        { Contributors := { DeepSleep := 82, RemSleep := 83, Restfulness := 80, TotalSleep := 81 },
          Score := 85 } =
        "■低バッテリーアラート:\n" ++
        "\tバッテリー残量は十分です。\n" ++
        "\n■睡眠データ:\n  ・合計睡眠時間:\n" ++
        "\u3000\u3000\u3000\u3000\u300008h:00m:00s\n" ++
        "  ・睡眠効率:\t\t90%\n" ++
        "  ・就寝時間:\n\t\t\u3000\u3000\u3000\u3000" ++
        dateTimeText bedtimeStart ++
        "\n  ・起床時間:\n\t\t\u3000\u3000\u3000\u3000" ++
        dateTimeText bedtimeEnd ++
        "\n  ・深い睡眠時間:\n\t\t\u3000\u3000\u3000\u3000\u3000" ++
        formatSecondsToTime deep ++
        "\n  ・浅い睡眠時間:\n\t\t\u3000\u3000\u3000\u3000\u3000" ++
        formatSecondsToTime light ++
        "\n  ・REM睡眠時間:\n\t\t\u3000\u3000\u3000\u3000\u3000" ++
        formatSecondsToTime rem ++
        "\n\t\n■睡眠スコアデータ:\n" ++
        "  ・睡眠スコア:\t\t85/100\n" ++
        "  ・安眠度のスコア:\t\t80/100\n" ++
        "  ・睡眠時間のスコア:\t\t81/100\n" ++
        "  ・深い睡眠のスコア:\t\t82/100\n" ++
        "  ・REM睡眠のスコア:\t\t83/100\n" ++
        "\t\n■活動量データ:\n" ++
        "  ・アクティブスコア:\t\t80/100\n" ++
        "  ・総消費カロリー:\t\t2000 kcal\n" ++
        "  ・着用していない時間:\n" ++
        "\t\t\u3000\u3000\u3000\u3000\u300000h:10m:00s" := by
  apply String.ext
  rw [reportMessage_general]
  simp only [String.data_append, List.append_assoc]
  rfl

theorem reportMessage_concrete :
    reportMessage sampleActivity sampleSleep sampleSleepScore =
      "■低バッテリーアラート:\n" ++
      "\tバッテリー残量は十分です。\n" ++
      "\n■睡眠データ:\n  ・合計睡眠時間:\n" ++
      "\u3000\u3000\u3000\u3000\u300008h:00m:00s\n" ++
      "  ・睡眠効率:\t\t90%\n" ++
      "  ・就寝時間:\n\t\t\u3000\u3000\u3000\u30002024-01-01 23:30:00\n" ++
      "  ・起床時間:\n\t\t\u3000\u3000\u3000\u30002024-01-02 07:30:00\n" ++
      "  ・深い睡眠時間:\n" ++
      "\t\t\u3000\u3000\u3000\u3000\u300002h:00m:00s\n" ++
      "  ・浅い睡眠時間:\n" ++
      "\t\t\u3000\u3000\u3000\u3000\u300004h:00m:00s\n" ++
      "  ・REM睡眠時間:\n" ++
      "\t\t\u3000\u3000\u3000\u3000\u300002h:00m:00s\n" ++
      "\t\n■睡眠スコアデータ:\n" ++
      "  ・睡眠スコア:\t\t85/100\n" ++
      "  ・安眠度のスコア:\t\t80/100\n" ++
      "  ・睡眠時間のスコア:\t\t81/100\n" ++
      "  ・深い睡眠のスコア:\t\t82/100\n" ++
      "  ・REM睡眠のスコア:\t\t83/100\n" ++
      "\t\n■活動量データ:\n" ++
      "  ・アクティブスコア:\t\t80/100\n" ++
      "  ・総消費カロリー:\t\t2000 kcal\n" ++
      "  ・着用していない時間:\n" ++
      "\t\t\u3000\u3000\u3000\u3000\u300000h:10m:00s" := by
  rfl

/-- C5: the report is the fixed template: the battery line, then the sleep section, the sleep
score section and the activity section, with every field rendered as the template says; the
battery line is the low-battery text exactly when `LowBatteryAlert` is set; on the sample
records the report is the expected text, byte for byte. -/
theorem reportMessage_template (activity : Activity) (sleep : Sleep) (sleepScore : SleepScore) :
    reportMessage activity sleep sleepScore =
        "■低バッテリーアラート:\n\t" ++
        getBatteryStatusMessage sleep.LowBatteryAlert ++
        "\n\n■睡眠データ:\n  ・合計睡眠時間:\n\u3000\u3000\u3000\u3000\u3000" ++
        formatSecondsToTime sleep.TotalSleepDuration ++
        "\n  ・睡眠効率:\t\t" ++
        toString sleep.Efficiency ++
        "%\n  ・就寝時間:\n\t\t\u3000\u3000\u3000\u3000" ++
        dateTimeText sleep.BedtimeStart ++
        "\n  ・起床時間:\n\t\t\u3000\u3000\u3000\u3000" ++
        dateTimeText sleep.BedtimeEnd ++
        "\n  ・深い睡眠時間:\n\t\t\u3000\u3000\u3000\u3000\u3000" ++
        formatSecondsToTime sleep.DeepSleepDuration ++
        "\n  ・浅い睡眠時間:\n\t\t\u3000\u3000\u3000\u3000\u3000" ++
        formatSecondsToTime sleep.LightSleepDuration ++
        "\n  ・REM睡眠時間:\n\t\t\u3000\u3000\u3000\u3000\u3000" ++
        formatSecondsToTime sleep.RemSleepDuration ++
        "\n\t\n■睡眠スコアデータ:\n  ・睡眠スコア:\t\t" ++
        toString sleepScore.Score ++
        "/100\n  ・安眠度のスコア:\t\t" ++
        toString sleepScore.Contributors.Restfulness ++
        "/100\n  ・睡眠時間のスコア:\t\t" ++
        toString sleepScore.Contributors.TotalSleep ++
        "/100\n  ・深い睡眠のスコア:\t\t" ++
        toString sleepScore.Contributors.DeepSleep ++
        "/100\n  ・REM睡眠のスコア:\t\t" ++
        toString sleepScore.Contributors.RemSleep ++
        "/100\n\t\n■活動量データ:\n  ・アクティブスコア:\t\t" ++
        toString activity.ActiveScore ++
        "/100\n  ・総消費カロリー:\t\t" ++
        toString activity.Calories ++
        " kcal\n  ・着用していない時間:\n\t\t\u3000\u3000\u3000\u3000\u3000" ++
        formatSecondsToTime activity.NonWearTime
    ∧ getBatteryStatusMessage true = "バッテリー残量が少なくなっています。"
    ∧ getBatteryStatusMessage false = "バッテリー残量は十分です。"
    ∧ (getBatteryStatusMessage sleep.LowBatteryAlert = "バッテリー残量が少なくなっています。"
        ↔ sleep.LowBatteryAlert = true)
    ∧ (∀ (bedtimeStart bedtimeEnd : Time) (deep light rem : Int),
        reportMessage { ActiveScore := 80, Calories := 2000, NonWearTime := 600 }
          { BedtimeStart := bedtimeStart, BedtimeEnd := bedtimeEnd, DeepSleepDuration := deep,
            LightSleepDuration := light, RemSleepDuration := rem, TotalSleepDuration := 28800,
            Efficiency := 90, LowBatteryAlert := false }
          { Contributors :=
              { DeepSleep := 82, RemSleep := 83, Restfulness := 80, TotalSleep := 81 },
            Score := 85 } =
        "■低バッテリーアラート:\n" ++
        "\tバッテリー残量は十分です。\n" ++
        "\n■睡眠データ:\n  ・合計睡眠時間:\n" ++
        "\u3000\u3000\u3000\u3000\u300008h:00m:00s\n" ++
        "  ・睡眠効率:\t\t90%\n" ++
        "  ・就寝時間:\n\t\t\u3000\u3000\u3000\u3000" ++
        dateTimeText bedtimeStart ++
        "\n  ・起床時間:\n\t\t\u3000\u3000\u3000\u3000" ++
        dateTimeText bedtimeEnd ++
        "\n  ・深い睡眠時間:\n\t\t\u3000\u3000\u3000\u3000\u3000" ++
        formatSecondsToTime deep ++
        "\n  ・浅い睡眠時間:\n\t\t\u3000\u3000\u3000\u3000\u3000" ++
        formatSecondsToTime light ++
        "\n  ・REM睡眠時間:\n\t\t\u3000\u3000\u3000\u3000\u3000" ++
        formatSecondsToTime rem ++
        "\n\t\n■睡眠スコアデータ:\n" ++
        "  ・睡眠スコア:\t\t85/100\n" ++
        "  ・安眠度のスコア:\t\t80/100\n" ++
        "  ・睡眠時間のスコア:\t\t81/100\n" ++
        "  ・深い睡眠のスコア:\t\t82/100\n" ++
        "  ・REM睡眠のスコア:\t\t83/100\n" ++
        "\t\n■活動量データ:\n" ++
        "  ・アクティブスコア:\t\t80/100\n" ++
        "  ・総消費カロリー:\t\t2000 kcal\n" ++
        "  ・着用していない時間:\n" ++
        "\t\t\u3000\u3000\u3000\u3000\u300000h:10m:00s")
    ∧ goString (reportMessage sampleActivity sampleSleep sampleSleepScore) = goString (
      "■低バッテリーアラート:\n" ++
      "\tバッテリー残量は十分です。\n" ++
      "\n■睡眠データ:\n  ・合計睡眠時間:\n" ++
      "\u3000\u3000\u3000\u3000\u300008h:00m:00s\n" ++
      "  ・睡眠効率:\t\t90%\n" ++
      "  ・就寝時間:\n\t\t\u3000\u3000\u3000\u30002024-01-01 23:30:00\n" ++
      "  ・起床時間:\n\t\t\u3000\u3000\u3000\u30002024-01-02 07:30:00\n" ++
      "  ・深い睡眠時間:\n" ++
      "\t\t\u3000\u3000\u3000\u3000\u300002h:00m:00s\n" ++
      "  ・浅い睡眠時間:\n" ++
      "\t\t\u3000\u3000\u3000\u3000\u300004h:00m:00s\n" ++
      "  ・REM睡眠時間:\n" ++
      "\t\t\u3000\u3000\u3000\u3000\u300002h:00m:00s\n" ++
      "\t\n■睡眠スコアデータ:\n" ++
      "  ・睡眠スコア:\t\t85/100\n" ++
      "  ・安眠度のスコア:\t\t80/100\n" ++
      "  ・睡眠時間のスコア:\t\t81/100\n" ++
      "  ・深い睡眠のスコア:\t\t82/100\n" ++
      "  ・REM睡眠のスコア:\t\t83/100\n" ++
      "\t\n■活動量データ:\n" ++
      "  ・アクティブスコア:\t\t80/100\n" ++
      "  ・総消費カロリー:\t\t2000 kcal\n" ++
      "  ・着用していない時間:\n" ++
      "\t\t\u3000\u3000\u3000\u3000\u300000h:10m:00s") := by
  refine ⟨reportMessage_general _ _ _, rfl, rfl, ?_, reportMessage_sample, ?_⟩
  · cases sleep.LowBatteryAlert
    · simp only [Bool.false_eq_true, iff_false]; decide
    · simp only [iff_true]; rfl
  · exact congrArg goString reportMessage_concrete

/-! ## The date window (C6) -/

/-- The dates of the three fetches, whatever the two clock readings are. -/
theorem main_fetch_window (cfg : Config) (w : World) (acRes sleepRes sleepScoreRes : GoString)
    (hf : Fetched cfg w acRes sleepRes sleepScoreRes) :
    (main cfg w).calls.take 3 = fetchCalls cfg w
    ∧ formatDate w ((w.now 0).Add (-24 * Hour)) = some (yesterdayDateFormed w)
    ∧ formatDate w (w.now 1) = some (todayDateFormed w) := by
  refine ⟨?_, formatDate_of_tzdata w hf.2.2.2.1 _, formatDate_of_tzdata w hf.2.2.2.1 _⟩
  rw [main_of_fetched cfg w _ _ _ hf]
  simp [fetchCalls]

/-- The date a layout `2006-01-02` prints depends on the day number only. -/
theorem format_date_of_days (t u : Time) (h : t.days = u.days) :
    t.Format "2006-01-02" = u.Format "2006-01-02" := by
  have e : ∀ x : Time, x.Format "2006-01-02"
      = String.mk (appendInt (civilFromDays x.days).1 4 ++ '-' ::
          (appendInt (civilFromDays x.days).2.1 2 ++ '-' ::
            (appendInt (civilFromDays x.days).2.2 2 ++ []))) := fun _ => rfl
  rw [e t, e u, h]

/-- When the two clock readings fall on the same day in Tokyo, the start date is the date 24
hours before the second reading, the one that gives the end date. -/
theorem window_of_same_day (w : World) (htz : w.tzdata = true)
    (h : ((w.now 0).In (9 * 3600)).days = ((w.now 1).In (9 * 3600)).days) :
    formatDate w ((w.now 1).Add (-24 * Hour)) = some (yesterdayDateFormed w)
    ∧ formatDate w (w.now 1) = some (todayDateFormed w) := by
  refine ⟨?_, formatDate_of_tzdata w htz _⟩
  rw [formatDate_of_tzdata w htz]
  congr 1
  apply format_date_of_days
  simp only [Time.days, Time.In, Time.Add, Hour] at h ⊢
  omega

/-- When both clock readings are the instant `now`, the window is the one of `now`. -/
theorem window_of_single_reading (w : World) (now : Time) (h0 : w.now 0 = now)
    (h1 : w.now 1 = now) (htz : w.tzdata = true) :
    some (yesterdayDateFormed w) = formatDate w (now.Add (-24 * Hour))
    ∧ some (todayDateFormed w) = formatDate w now := by
  simp [yesterdayDateFormed, todayDateFormed, h0, h1, formatDate_of_tzdata w htz]

/-- C6 at a run that straddles midnight in Tokyo: the first clock reading is 23:59:59 of
2024-01-01 and the second 00:00:00 of 2024-01-02. Activity and sleep are fetched from
2023-12-31 to 2024-01-02, which is the window of neither reading: the date 24 hours before the
second reading and the date of the first reading are both 2024-01-01. -/
theorem window_across_midnight :
    (main exampleConfig worldMidnight).calls.take 3
      = [ .fetchOuraData ouraApiDailyActivityUrl exampleConfig.OURA_API_TOKEN
            "2023-12-31" "2024-01-02",
          .fetchOuraData ouraApiSleepUrl exampleConfig.OURA_API_TOKEN "2023-12-31" "2024-01-02",
          .fetchOuraData ouraApiSleepScoreUrl exampleConfig.OURA_API_TOKEN
            "2024-01-02" "2024-01-02" ]
    ∧ formatDate worldMidnight (worldMidnight.now 0) = some "2024-01-01"
    ∧ formatDate worldMidnight ((worldMidnight.now 0).Add (-24 * Hour)) = some "2023-12-31"
    ∧ formatDate worldMidnight (worldMidnight.now 1) = some "2024-01-02"
    ∧ formatDate worldMidnight ((worldMidnight.now 1).Add (-24 * Hour)) = some "2024-01-01" := by
  refine ⟨?_, ?_, ?_, ?_, ?_⟩ <;> rfl

end OuraLineBot
